import Mathlib

/-!
# UFO sighting service: the in-memory entity store

Shallow embedding of the two gRPC servers of the repository

* `week_1/grpc/cmd/grpc_server/main.go` (namespace `GrpcServer`)
* `week_1/workspace/grpc/cmd/server/main.go` (namespace `Workspace`)

Each handler runs under the service mutex from its first to its last statement, so a
handler is one atomic step on the store: it takes the store before the call and gives a
reply together with the store after the call.  The two values a handler obtains from
its environment, `uuid.NewString()` and `time.Now()`, are explicit arguments.  Logging
is not modelled.

The protobuf message types live in the generated packages `pkg/proto/ufo/v1`; their
fields are taken from the way the servers and the clients read and build them.  A Go
pointer field is an `Option` (`none` is nil).  Every request is decoded into fresh
messages, so records are held by value: no two records share an `Info`.
-/

namespace Ufo

/-- Message `google.protobuf.Timestamp`. -/
structure Timestamp where
  Seconds : Int
  Nanos : Int
  deriving DecidableEq, Repr

/-- Wrapper message `google.protobuf.StringValue`. -/
structure StringValue where
  Value : String
  deriving DecidableEq, Repr

/-- Wrapper message `google.protobuf.BoolValue`. -/
structure BoolValue where
  Value : Bool
  deriving DecidableEq, Repr

/-- Wrapper message `google.protobuf.Int32Value`; the value is a signed 32-bit integer. -/
structure Int32Value where
  Value : Int
  deriving DecidableEq, Repr

/-- Message `SightingInfo`, the payload of a sighting: `Location` and `Description` are
plain strings, the other four fields are pointers. -/
structure SightingInfo where
  ObservedAt : Option Timestamp
  Location : String
  Description : String
  Color : Option StringValue
  Sound : Option BoolValue
  DurationSeconds : Option Int32Value
  deriving DecidableEq, Repr

/-- Message `SightingUpdateInfo`, the patch of an update: every field is a pointer. -/
structure SightingUpdateInfo where
  ObservedAt : Option Timestamp
  Location : Option StringValue
  Description : Option StringValue
  Color : Option StringValue
  Sound : Option BoolValue
  DurationSeconds : Option Int32Value
  deriving DecidableEq, Repr

/-- Message `Sighting`, the stored record. -/
structure Sighting where
  Uuid : String
  Info : Option SightingInfo
  CreatedAt : Option Timestamp
  UpdatedAt : Option Timestamp
  DeletedAt : Option Timestamp
  deriving DecidableEq, Repr

/-- Message `CreateRequest`. -/
structure CreateRequest where
  Info : Option SightingInfo
  deriving DecidableEq, Repr

/-- Message `CreateResponse`. -/
structure CreateResponse where
  Uuid : String
  deriving DecidableEq, Repr

/-- Message `GetRequest`. -/
structure GetRequest where
  Uuid : String
  deriving DecidableEq, Repr

/-- Message `GetResponse`. -/
structure GetResponse where
  Sighting : Option Sighting
  deriving DecidableEq, Repr

/-- Message `GetAllResponse`; `TotalCount` is a signed 32-bit integer. -/
structure GetAllResponse where
  Sightings : List Sighting
  TotalCount : Int
  deriving DecidableEq, Repr

/-- Message `UpdateRequest`. -/
structure UpdateRequest where
  Uuid : String
  UpdateInfo : Option SightingUpdateInfo
  deriving DecidableEq, Repr

/-- Message `DeleteRequest`. -/
structure DeleteRequest where
  Uuid : String
  deriving DecidableEq, Repr

/-- The two gRPC status codes the handlers return. -/
inductive Code where
  | NotFound
  | InvalidArgument
  deriving DecidableEq, Repr

/-- What a handler call ends in: a response with a nil error, a nil response with a
status error, or a run-time panic (nil pointer dereference). -/
inductive Reply (α : Type) where
  | ok (resp : α)
  | status (code : Code) (msg : String)
  | panic
  deriving DecidableEq, Repr

/-- The Go map `map[string]*Sighting`: finitely many keys, one record per key.  Only
`Create` stores into the map, always the address of a fresh struct, so no entry is nil
and no two keys share a record. -/
abbrev SightingMap := AList (fun _ : String => Sighting)

/-- Go conversion `int32(n)` of an `int`: the low 32 bits, read as a signed number. -/
def int32 (n : Int) : Int :=
  (n + 2 ^ 31) % 2 ^ 32 - 2 ^ 31

/-- Assignment `sighting.Info.f = v`: the write goes through the pointer `sighting.Info`
and panics (`none`) when that pointer is nil. -/
def setInfo (sighting : Sighting) (f : SightingInfo → SightingInfo) : Option Sighting :=
  match sighting.Info with
  | none => none
  | some info => some { sighting with Info := some (f info) }

/-- The six guarded field writes of `Update`, in source order
(`grpc_server/main.go` lines 47-69, `server/main.go` lines 125-147, the same text):
each field of the patch that is not nil is written through `sighting.Info`.
`none` is a panic; the first write attempted is the one that panics, so nothing has
been written before it. -/
def mergeUpdateInfo (sighting : Sighting) (update : SightingUpdateInfo) : Option Sighting := do
  let sighting ← match update.ObservedAt with
    | some v => setInfo sighting (fun i => { i with ObservedAt := some v })
    | none => pure sighting
  let sighting ← match update.Location with
    | some v => setInfo sighting (fun i => { i with Location := v.Value })
    | none => pure sighting
  let sighting ← match update.Description with
    | some v => setInfo sighting (fun i => { i with Description := v.Value })
    | none => pure sighting
  let sighting ← match update.Color with
    | some v => setInfo sighting (fun i => { i with Color := some v })
    | none => pure sighting
  let sighting ← match update.Sound with
    | some v => setInfo sighting (fun i => { i with Sound := some v })
    | none => pure sighting
  let sighting ← match update.DurationSeconds with
    | some v => setInfo sighting (fun i => { i with DurationSeconds := some v })
    | none => pure sighting
  pure sighting

end Ufo

namespace GrpcServer
open Ufo

/-- The service of `week_1/grpc/cmd/grpc_server/main.go`. -/
structure ufoService where
  sightings : SightingMap
  deriving DecidableEq

/-- Handler `ufoService.Update` (lines 33-74). -/
def Update (s : ufoService) (req : UpdateRequest) (now : Timestamp) : Reply Unit × ufoService :=
  match s.sightings.lookup req.Uuid with
  | none => (.status .NotFound ("sighting with UUID " ++ req.Uuid ++ " not found"), s)
  | some sighting =>
    match req.UpdateInfo with
    | none => (.status .InvalidArgument "update_info is required", s)
    | some update =>
      match mergeUpdateInfo sighting update with
      | none => (.panic, s)
      | some sighting =>
        (.ok (), { s with sightings :=
          s.sightings.insert req.Uuid { sighting with UpdatedAt := some now } })

/-- Handler `ufoService.Delete` (lines 76-88). -/
def Delete (s : ufoService) (req : DeleteRequest) (now : Timestamp) : Reply Unit × ufoService :=
  match s.sightings.lookup req.Uuid with
  | none => (.status .NotFound ("sighting with UUID " ++ req.Uuid ++ " not found"), s)
  | some sighting =>
    (.ok (), { s with sightings :=
      s.sightings.insert req.Uuid { sighting with DeletedAt := some now } })

/-- Handler `ufoService.GetAll` (lines 90-103). -/
def GetAll (s : ufoService) : Reply GetAllResponse × ufoService :=
  let sightings := s.sightings.entries.map (fun e => e.2)
  (.ok { Sightings := sightings, TotalCount := int32 sightings.length }, s)

/-- Handler `ufoService.Get` (lines 105-116). -/
def Get (s : ufoService) (req : GetRequest) : Reply GetResponse × ufoService :=
  match s.sightings.lookup req.Uuid with
  | none => (.status .NotFound ("sighting with UUID " ++ req.Uuid ++ " not found"), s)
  | some sighting => (.ok { Sighting := some sighting }, s)

/-- Handler `ufoService.Create` (lines 118-134). -/
def Create (s : ufoService) (req : CreateRequest) (newUUID : String) (now : Timestamp) :
    Reply CreateResponse × ufoService :=
  let sightingNew : Sighting :=
    { Uuid := newUUID, Info := req.Info, CreatedAt := some now,
      UpdatedAt := none, DeletedAt := none }
  (.ok { Uuid := newUUID }, { s with sightings := s.sightings.insert newUUID sightingNew })

end GrpcServer

namespace Workspace
open Ufo

/-- The service of `week_1/workspace/grpc/cmd/server/main.go`. -/
structure ufoService where
  sighting : SightingMap
  deriving DecidableEq

/-- Constructor `NewUfoService` (lines 39-43): the empty map. -/
def NewUfoService : ufoService :=
  { sighting := ∅ }

/-- Handler `ufoService.Create` (lines 45-71).  `Validate` is the generated validator
of `CreateRequest`; it gives `none` for a nil error and `some e` for the error whose
text is `e`. -/
def Create (Validate : CreateRequest → Option String) (u : ufoService) (rq : CreateRequest)
    (newUUID : String) (now : Timestamp) : Reply CreateResponse × ufoService :=
  match Validate rq with
  | some err => (.status .InvalidArgument ("validation error: " ++ err), u)
  | none =>
    match rq.Info with
    | none => (.status .InvalidArgument "info is required", u)
    | some info =>
      let sighting : Sighting :=
        { Uuid := newUUID, Info := some info, CreatedAt := some now,
          UpdatedAt := none, DeletedAt := none }
      (.ok { Uuid := newUUID }, { u with sighting := u.sighting.insert newUUID sighting })

/-- Handler `ufoService.Delete` (lines 73-83). -/
def Delete (u : ufoService) (req : DeleteRequest) (now : Timestamp) : Reply Unit × ufoService :=
  match u.sighting.lookup req.Uuid with
  | none => (.status .NotFound ("sighting with uuid " ++ req.Uuid ++ " not found"), u)
  | some sighting =>
    (.ok (), { u with sighting :=
      u.sighting.insert req.Uuid { sighting with DeletedAt := some now } })

/-- Handler `ufoService.GetAll` (lines 85-97). -/
def GetAll (u : ufoService) : Reply GetAllResponse × ufoService :=
  let sightings := u.sighting.entries.map (fun e => e.2)
  (.ok { Sightings := sightings, TotalCount := int32 sightings.length }, u)

/-- Handler `ufoService.Get` (lines 99-109). -/
def Get (u : ufoService) (req : GetRequest) : Reply GetResponse × ufoService :=
  match u.sighting.lookup req.Uuid with
  | none => (.status .NotFound ("sighting with UUID " ++ req.Uuid ++ " not found"), u)
  | some sighting => (.ok { Sighting := some sighting }, u)

/-- Handler `ufoService.Update` (lines 111-152). -/
def Update (u : ufoService) (req : UpdateRequest) (now : Timestamp) : Reply Unit × ufoService :=
  match u.sighting.lookup req.Uuid with
  | none => (.status .NotFound ("sighting with uuid " ++ req.Uuid ++ " not found"), u)
  | some sighting =>
    match req.UpdateInfo with
    | none => (.status .InvalidArgument "update_info is required", u)
    | some update =>
      match mergeUpdateInfo sighting update with
      | none => (.panic, u)
      | some sighting =>
        (.ok (), { u with sighting :=
          u.sighting.insert req.Uuid { sighting with UpdatedAt := some now } })

end Workspace

namespace Ufo

/-- Two instants, the second later than the first. -/
def time1 : Timestamp := { Seconds := 100, Nanos := 0 }

/-- The later instant. -/
def time2 : Timestamp := { Seconds := 200, Nanos := 0 }

/-- A payload as the client builds it, with the three optional fields left unset. -/
def sampleInfo : SightingInfo :=
  { ObservedAt := some { Seconds := 50, Nanos := 0 }, Location := "Oslo",
    Description := "lights", Color := none, Sound := none, DurationSeconds := none }

/-- The record `Create` stores for `sampleInfo` under the id `u` at `time1`. -/
def sampleRecord : Sighting :=
  { Uuid := "u", Info := some sampleInfo, CreatedAt := some time1,
    UpdatedAt := none, DeletedAt := none }

/-- A second record, under the id `v`, created without a payload. -/
def otherRecord : Sighting :=
  { Uuid := "v", Info := none, CreatedAt := some time1, UpdatedAt := none, DeletedAt := none }

/-- A map holding `sampleRecord` under `u` and `otherRecord` under `v`. -/
def sampleMap : SightingMap :=
  (AList.insert "v" otherRecord ∅).insert "u" sampleRecord

/-- The patch in which every field is absent. -/
def emptyPatch : SightingUpdateInfo :=
  { ObservedAt := none, Location := none, Description := none, Color := none,
    Sound := none, DurationSeconds := none }

/-- The patch the client sends: a new description and the colour red. -/
def clientPatch : SightingUpdateInfo :=
  { ObservedAt := none, Location := none, Description := some { Value := "seen again" },
    Color := some { Value := "Red" }, Sound := none, DurationSeconds := none }

/-- A patch that sets zero values: the empty location, no sound, duration zero. -/
def zeroPatch : SightingUpdateInfo :=
  { ObservedAt := none, Location := some { Value := "" }, Description := none,
    Color := none, Sound := some { Value := false }, DurationSeconds := some { Value := 0 } }

end Ufo

namespace Ufo

/-- Chronological order of two timestamps: earlier seconds, or the same second and
earlier nanoseconds. -/
def Timestamp.before (a b : Timestamp) : Prop :=
  a.Seconds < b.Seconds ∨ (a.Seconds = b.Seconds ∧ a.Nanos < b.Nanos)

instance (a b : Timestamp) : Decidable (a.before b) :=
  inferInstanceAs (Decidable (_ ∨ _))

end Ufo

namespace GrpcServer
open Ufo

/-- A call of one of the three handlers of `grpc_server/main.go` that write to the
store, with the id and the time the handler obtains during the call.  `Get` and
`GetAll` leave the store as it is. -/
inductive Call where
  | create (req : CreateRequest) (newUUID : String) (now : Timestamp)
  | update (req : UpdateRequest) (now : Timestamp)
  | delete (req : DeleteRequest) (now : Timestamp)

/-- The store after one call. -/
def step (s : ufoService) : Call → ufoService
  | .create req newUUID now => (Create s req newUUID now).2
  | .update req now => (Update s req now).2
  | .delete req now => (Delete s req now).2

/-- The store after a sequence of calls on the empty store that `main` builds
(`make(map[string]*ufo_v1.Sighting)`, line 152). -/
def run (calls : List Call) : ufoService :=
  calls.foldl step { sightings := ∅ }

end GrpcServer

namespace Workspace
open Ufo

/-- A call of one of the three handlers of `server/main.go` that write to the store. -/
inductive Call where
  | create (rq : CreateRequest) (newUUID : String) (now : Timestamp)
  | update (req : UpdateRequest) (now : Timestamp)
  | delete (req : DeleteRequest) (now : Timestamp)

/-- The store after one call. -/
def step (Validate : CreateRequest → Option String) (u : ufoService) : Call → ufoService
  | .create rq newUUID now => (Create Validate u rq newUUID now).2
  | .update req now => (Update u req now).2
  | .delete req now => (Delete u req now).2

/-- The store after a sequence of calls on the empty store. -/
def run (Validate : CreateRequest → Option String) (calls : List Call) : ufoService :=
  calls.foldl (step Validate) NewUfoService

end Workspace

/-!
# Weather servers

* `week_1/http_chi_ogen/cmd/http_server/main.go` (namespace `OgenServer`)
* `week_1/http_chi/pkg/models` (namespace `Models`)

A temperature is a `float64` that is stored and returned, never computed with.
-/

namespace time

/-- Type `time.Time`: an instant, held as nanoseconds since the Unix epoch. -/
abbrev Time := Int

end time

namespace OgenServer

/-- Type `weather_v1.Weather` of the generated OpenAPI package, with the fields the
handlers fill. -/
structure Weather where
  City : String
  Temperature : Float
  UpdatedAt : time.Time

/-- Type `weather_v1.NotFoundError`. -/
structure NotFoundError where
  Code : Int
  Message : String

/-- Interface `weather_v1.GetWeatherByCityRes`, with the two response types the
handler returns. -/
inductive GetWeatherByCityRes where
  | Weather (w : Weather)
  | NotFoundError (e : NotFoundError)

/-- Type `weather_v1.GetWeatherByCityParams`. -/
structure GetWeatherByCityParams where
  City : String

/-- Type `weather_v1.UpdateWeatherByCityParams`. -/
structure UpdateWeatherByCityParams where
  City : String

/-- Type `weather_v1.UpdateWeatherRequest`. -/
structure UpdateWeatherRequest where
  Temperature : Float

/-- Type `WeatherStorage` (lines 28-31): the map `map[string]*weather_v1.Weather`.
`UpdateWeather` stores the pointer it is given, so an entry may be nil (`none`). -/
structure WeatherStorage where
  weathers : AList (fun _ : String => Option Weather)

/-- Constructor `NewWeatherStorage` (lines 33-37). -/
def NewWeatherStorage : WeatherStorage :=
  { weathers := ∅ }

/-- Method `WeatherStorage.GetWeather` (lines 39-47). -/
def WeatherStorage.GetWeather (s : WeatherStorage) (city : String) : Option Weather :=
  match s.weathers.lookup city with
  | none => none
  | some weather => weather

/-- Method `WeatherStorage.UpdateWeather` (lines 49-54). -/
def WeatherStorage.UpdateWeather (s : WeatherStorage) (city : String)
    (weather : Option Weather) : WeatherStorage :=
  { s with weathers := s.weathers.insert city weather }

/-- Type `WeatherHandler` (lines 56-58); the storage it points to is held by value and
handed on by the handlers that write to it. -/
structure WeatherHandler where
  storage : WeatherStorage

/-- Constructor `NewWeatherHandler` (lines 60-64). -/
def NewWeatherHandler (storage : WeatherStorage) : WeatherHandler :=
  { storage := storage }

/-- Handler `WeatherHandler.GetWeatherByCity` (lines 66-75): the response and the
error, which is always nil (`none`). -/
def WeatherHandler.GetWeatherByCity (h : WeatherHandler) (params : GetWeatherByCityParams) :
    GetWeatherByCityRes × Option String :=
  match h.storage.GetWeather params.City with
  | none =>
    (.NotFoundError { Code := 404,
                      Message := "Weather data not found for city: " ++ params.City }, none)
  | some weather => (.Weather weather, none)

/-- Handler `WeatherHandler.UpdateWeatherByCity` (lines 77-86): the response, the nil
error, and the handler with the storage after the call. -/
def WeatherHandler.UpdateWeatherByCity (h : WeatherHandler) (req : UpdateWeatherRequest)
    (params : UpdateWeatherByCityParams) (now : time.Time) :
    (Weather × Option String) × WeatherHandler :=
  let weather : Weather :=
    { City := params.City, Temperature := req.Temperature, UpdatedAt := now }
  ((weather, none),
    { h with storage := h.storage.UpdateWeather params.City (some weather) })

/-- The handler after a sequence of `UpdateWeatherByCity` calls, the only handler that
writes, on the empty storage that `main` builds (lines 99-101). -/
def served (calls : List (UpdateWeatherRequest × UpdateWeatherByCityParams × time.Time)) :
    WeatherHandler :=
  calls.foldl (fun h c => (h.UpdateWeatherByCity c.1 c.2.1 c.2.2).2)
    (NewWeatherHandler NewWeatherStorage)

/-- A weather record for Oslo. -/
def oslo : Weather :=
  { City := "Oslo", Temperature := 5.0, UpdatedAt := 1000 }

/-- A handler whose storage holds the Oslo record and a nil entry for Rome. -/
def sampleHandler : WeatherHandler :=
  { storage := { weathers := (AList.insert "Rome" none ∅).insert "Oslo" (some oslo) } }

end OgenServer

namespace Models

/-- Type `Weather` of `pkg/models/weather.go`. -/
structure Weather where
  City : String
  Temperature : Float
  UpdatedAt : time.Time

/-- Type `WeatherStorage` of `pkg/models/storage.go` (lines 5-9): the map
`map[string]*Weather`.  `UpdateWeather`, the only writer, reads `w.City` before it
stores `w`, so no entry is nil. -/
structure WeatherStorage where
  weathers : AList (fun _ : String => Weather)

/-- Constructor `NewWeatherStorage` (lines 11-15). -/
def NewWeatherStorage : WeatherStorage :=
  { weathers := ∅ }

/-- Method `WeatherStorage.GetAllWeathers` (lines 17-27). -/
def WeatherStorage.GetAllWeathers (s : WeatherStorage) : List Weather :=
  s.weathers.entries.map (fun e => e.2)

/-- Method `WeatherStorage.UpdateWeather` (lines 29-34), for a pointer `w` that is not
nil (a nil one panics at `w.City`). -/
def WeatherStorage.UpdateWeather (s : WeatherStorage) (w : Weather) : WeatherStorage :=
  { s with weathers := s.weathers.insert w.City w }

/-- Method `WeatherStorage.DeleteWeather` (lines 36-41). -/
def WeatherStorage.DeleteWeather (s : WeatherStorage) (city : String) : WeatherStorage :=
  { s with weathers := s.weathers.erase city }

/-- Method `WeatherStorage.GetWeather` (lines 43-52): nil (`none`) for a city that is
not a key. -/
def WeatherStorage.GetWeather (s : WeatherStorage) (city : String) : Option Weather :=
  match s.weathers.lookup city with
  | none => none
  | some weather => some weather

/-- A call of one of the two methods that write to the storage. -/
inductive Op where
  | UpdateWeather (w : Weather)
  | DeleteWeather (city : String)

/-- The storage after one call. -/
def WeatherStorage.apply (s : WeatherStorage) : Op → WeatherStorage
  | .UpdateWeather w => s.UpdateWeather w
  | .DeleteWeather city => s.DeleteWeather city

/-- The storage after a sequence of calls, first call first, on the empty storage. -/
def run (ops : List Op) : WeatherStorage :=
  ops.foldl WeatherStorage.apply NewWeatherStorage

/-- The finite-map reading of a history of calls, in the words of the claim: going
back from the latest call, the record of the most recent `UpdateWeather` whose City
is `c`, unless a `DeleteWeather` of `c` came after it; nil when there is neither.
The history is given latest call first. -/
def latestRecord (c : String) : List Op → Option Weather
  | [] => none
  | .UpdateWeather w :: earlier => if w.City = c then some w else latestRecord c earlier
  | .DeleteWeather city :: earlier => if city = c then none else latestRecord c earlier

/-- A record for Oslo and a later one. -/
def oslo1 : Weather :=
  { City := "Oslo", Temperature := 5.0, UpdatedAt := 1000 }

/-- The later record for Oslo. -/
def oslo2 : Weather :=
  { City := "Oslo", Temperature := 6.0, UpdatedAt := 2000 }

/-- A record for Rome. -/
def rome : Weather :=
  { City := "Rome", Temperature := 20.0, UpdatedAt := 1500 }

end Models

/-! ## Lemmas on the field merge and on the handlers -/

namespace Ufo

theorem mergeUpdateInfo_of_info (sighting : Sighting) (update : SightingUpdateInfo)
    (info : SightingInfo) (h : sighting.Info = some info) :
    mergeUpdateInfo sighting update = some
      { sighting with
        Info := some
          { ObservedAt := update.ObservedAt.orElse (fun _ => info.ObservedAt)
            Location := (update.Location.map (fun v => v.Value)).getD info.Location
            Description := (update.Description.map (fun v => v.Value)).getD info.Description
            Color := update.Color.orElse (fun _ => info.Color)
            Sound := update.Sound.orElse (fun _ => info.Sound)
            DurationSeconds :=
              update.DurationSeconds.orElse (fun _ => info.DurationSeconds) } } := by
  obtain ⟨u, i, c, up, d⟩ := sighting
  obtain ⟨_ | a, _ | b, _ | c, _ | d, _ | e, _ | f⟩ := update <;> cases h <;> rfl

theorem mergeUpdateInfo_of_nil (sighting : Sighting) (update : SightingUpdateInfo)
    (h : sighting.Info = none) :
    mergeUpdateInfo sighting update =
      if update = emptyPatch then some sighting else none := by
  obtain ⟨u, i, c, up, d⟩ := sighting
  obtain ⟨_ | a, _ | b, _ | c, _ | d, _ | e, _ | f⟩ := update <;> cases h <;> simp [emptyPatch] <;> rfl

theorem mergeUpdateInfo_rest (r r2 : Sighting) (q : SightingUpdateInfo)
    (hm : mergeUpdateInfo r q = some r2) :
    r2.Uuid = r.Uuid ∧ r2.CreatedAt = r.CreatedAt ∧ r2.UpdatedAt = r.UpdatedAt ∧
      r2.DeletedAt = r.DeletedAt := by
  cases hI : r.Info with
  | none =>
    rw [mergeUpdateInfo_of_nil r q hI] at hm
    split at hm
    · cases hm; simp
    · cases hm
  | some info =>
    rw [mergeUpdateInfo_of_info r q info hI] at hm
    cases hm; simp

theorem mergeUpdateInfo_absent (r r2 : Sighting) (q : SightingUpdateInfo)
    (hm : mergeUpdateInfo r q = some r2) :
    (q.ObservedAt = none → r2.Info.map (·.ObservedAt) = r.Info.map (·.ObservedAt)) ∧
    (q.Location = none → r2.Info.map (·.Location) = r.Info.map (·.Location)) ∧
    (q.Description = none → r2.Info.map (·.Description) = r.Info.map (·.Description)) ∧
    (q.Color = none → r2.Info.map (·.Color) = r.Info.map (·.Color)) ∧
    (q.Sound = none → r2.Info.map (·.Sound) = r.Info.map (·.Sound)) ∧
    (q.DurationSeconds = none →
      r2.Info.map (·.DurationSeconds) = r.Info.map (·.DurationSeconds)) := by
  cases hI : r.Info with
  | none =>
    rw [mergeUpdateInfo_of_nil r q hI] at hm
    split at hm
    · cases hm; simp [hI]
    · cases hm
  | some info =>
    rw [mergeUpdateInfo_of_info r q info hI] at hm
    cases hm
    refine ⟨?_, ?_, ?_, ?_, ?_, ?_⟩ <;> intro h <;> simp [h]

theorem mergeUpdateInfo_present (r r2 : Sighting) (q : SightingUpdateInfo)
    (hm : mergeUpdateInfo r q = some r2) :
    (∀ v, q.ObservedAt = some v → r2.Info.map (·.ObservedAt) = some (some v)) ∧
    (∀ v, q.Location = some v → r2.Info.map (·.Location) = some v.Value) ∧
    (∀ v, q.Description = some v → r2.Info.map (·.Description) = some v.Value) ∧
    (∀ v, q.Color = some v → r2.Info.map (·.Color) = some (some v)) ∧
    (∀ v, q.Sound = some v → r2.Info.map (·.Sound) = some (some v)) ∧
    (∀ v, q.DurationSeconds = some v →
      r2.Info.map (·.DurationSeconds) = some (some v)) := by
  cases hI : r.Info with
  | none =>
    rw [mergeUpdateInfo_of_nil r q hI] at hm
    split at hm
    · rename_i he
      subst he
      simp [emptyPatch]
    · cases hm
  | some info =>
    rw [mergeUpdateInfo_of_info r q info hI] at hm
    cases hm
    refine ⟨?_, ?_, ?_, ?_, ?_, ?_⟩ <;> intro v h <;> simp [h]

/-- An accepted update, in either server, is a merge of the supplied patch into the
stored record followed by the refresh of `UpdatedAt`. -/
theorem update_ok_inv (m m' : SightingMap) (req : UpdateRequest) (now : Timestamp)
    (r : Sighting) (hr : m.lookup req.Uuid = some r)
    (hok : GrpcServer.Update ⟨m⟩ req now = (.ok (), ⟨m'⟩) ∨
      Workspace.Update ⟨m⟩ req now = (.ok (), ⟨m'⟩)) :
    ∃ q r2, req.UpdateInfo = some q ∧ mergeUpdateInfo r q = some r2 ∧
      m' = m.insert req.Uuid { r2 with UpdatedAt := some now } := by
  cases hq : req.UpdateInfo with
  | none => simp [GrpcServer.Update, Workspace.Update, hr, hq] at hok
  | some q =>
    cases hm : mergeUpdateInfo r q with
    | none => simp [GrpcServer.Update, Workspace.Update, hr, hq, hm] at hok
    | some r2 =>
      refine ⟨q, r2, rfl, hm, ?_⟩
      simp only [GrpcServer.Update, Workspace.Update, hr, hq, hm] at hok
      rcases hok with h | h
      · exact (GrpcServer.ufoService.mk.inj (Prod.mk.inj h).2).symm
      · exact (Workspace.ufoService.mk.inj (Prod.mk.inj h).2).symm

/-- A merge that went through goes through again on its own result, and changes
nothing of it. -/
theorem mergeUpdateInfo_again (r r2 : Sighting) (q : SightingUpdateInfo)
    (x : Option Timestamp) (hm : mergeUpdateInfo r q = some r2) :
    mergeUpdateInfo { r2 with UpdatedAt := x } q = some { r2 with UpdatedAt := x } := by
  cases hI : r.Info with
  | none =>
    rw [mergeUpdateInfo_of_nil r q hI] at hm
    split at hm
    · cases hm
      rw [mergeUpdateInfo_of_nil _ q
        (show ({ r with UpdatedAt := x } : Sighting).Info = none from hI)]
      simp [*]
    · cases hm
  | some info =>
    rw [mergeUpdateInfo_of_info r q info hI] at hm
    cases hm
    rw [mergeUpdateInfo_of_info _ q _ rfl]
    obtain ⟨_ | a, _ | b, _ | c, _ | d, _ | e, _ | f⟩ := q <;> rfl

/-- What an Update call, accepted or not, leaves of a stored record under any key:
the record is still there, in both servers the same, with its uuid, created_at and
deleted_at. -/
theorem update_rest (m : SightingMap) (req : UpdateRequest) (now : Timestamp) (k : String)
    (r : Sighting) (hr : m.lookup k = some r) :
    ∃ r', (GrpcServer.Update ⟨m⟩ req now).2.sightings.lookup k = some r' ∧
      (Workspace.Update ⟨m⟩ req now).2.sighting.lookup k = some r' ∧
      r'.Uuid = r.Uuid ∧ r'.CreatedAt = r.CreatedAt ∧ r'.DeletedAt = r.DeletedAt := by
  cases hl : m.lookup req.Uuid with
  | none => exact ⟨r, by simp [GrpcServer.Update, hl, hr], by simp [Workspace.Update, hl, hr]⟩
  | some r0 =>
    cases hq : req.UpdateInfo with
    | none =>
      exact ⟨r, by simp [GrpcServer.Update, hl, hq, hr], by simp [Workspace.Update, hl, hq, hr]⟩
    | some q =>
      cases hm : mergeUpdateInfo r0 q with
      | none =>
        exact ⟨r, by simp [GrpcServer.Update, hl, hq, hm, hr],
          by simp [Workspace.Update, hl, hq, hm, hr]⟩
      | some r2 =>
        by_cases hk : k = req.Uuid
        · subst hk
          have hrr : r0 = r := Option.some.inj (hl.symm.trans hr)
          subst hrr
          obtain ⟨h1, h2, _, h4⟩ := mergeUpdateInfo_rest r0 r2 q hm
          exact ⟨{ r2 with UpdatedAt := some now },
            by simp [GrpcServer.Update, hl, hq, hm],
            by simp [Workspace.Update, hl, hq, hm], h1, h2, h4⟩
        · exact ⟨r, by simp [GrpcServer.Update, hl, hq, hm, AList.lookup_insert_ne hk, hr],
            by simp [Workspace.Update, hl, hq, hm, AList.lookup_insert_ne hk, hr]⟩

/-- The values of an association list with distinct keys, read off key by key. -/
theorem values_eq_filterMap_keys (l : List (Sigma (fun _ : String => Sighting)))
    (hl : l.NodupKeys) :
    l.map (fun e => e.2) = l.keys.filterMap (fun k => List.dlookup k l) := by
  induction l with
  | nil => rfl
  | cons e t ih =>
    obtain ⟨a, b⟩ := e
    have hnd := List.nodupKeys_cons.1 hl
    have hstep : t.keys.filterMap (fun k => List.dlookup k (⟨a, b⟩ :: t))
        = t.keys.filterMap (fun k => List.dlookup k t) := by
      apply List.filterMap_congr
      intro k hk
      have hne : k ≠ a := by
        rintro rfl
        exact hnd.1 hk
      exact List.dlookup_cons_ne t ⟨a, b⟩ hne
    simp only [List.map_cons, List.keys_cons, List.filterMap_cons, List.dlookup_cons_eq]
    rw [hstep, ← ih hnd.2]

/-! ## The claims -/

/-- C1: after an accepted Update of a stored record, in either server, every payload
field whose patch entry is absent has its value from before the call (also when the
record has no payload at all), and every record under another id is unchanged. -/
theorem update_keeps_absent_fields (m m' : SightingMap) (req : UpdateRequest)
    (now : Timestamp) (r : Sighting) (hr : m.lookup req.Uuid = some r)
    (hok : GrpcServer.Update ⟨m⟩ req now = (.ok (), ⟨m'⟩) ∨
      Workspace.Update ⟨m⟩ req now = (.ok (), ⟨m'⟩)) :
    ∃ q r', req.UpdateInfo = some q ∧ m'.lookup req.Uuid = some r' ∧
      (q.ObservedAt = none → r'.Info.map (·.ObservedAt) = r.Info.map (·.ObservedAt)) ∧
      (q.Location = none → r'.Info.map (·.Location) = r.Info.map (·.Location)) ∧
      (q.Description = none → r'.Info.map (·.Description) = r.Info.map (·.Description)) ∧
      (q.Color = none → r'.Info.map (·.Color) = r.Info.map (·.Color)) ∧
      (q.Sound = none → r'.Info.map (·.Sound) = r.Info.map (·.Sound)) ∧
      (q.DurationSeconds = none →
        r'.Info.map (·.DurationSeconds) = r.Info.map (·.DurationSeconds)) ∧
      ∀ k, k ≠ req.Uuid → m'.lookup k = m.lookup k := by
  obtain ⟨q, r2, hq, hm, rfl⟩ := update_ok_inv m m' req now r hr hok
  obtain ⟨h1, h2, h3, h4, h5, h6⟩ := mergeUpdateInfo_absent r r2 q hm
  refine ⟨q, { r2 with UpdatedAt := some now }, hq, AList.lookup_insert m,
    h1, h2, h3, h4, h5, h6, ?_⟩
  intro k hk
  exact AList.lookup_insert_ne hk

/-- Witness of C1: the client's patch on the sample record keeps the four fields it does
not mention and the record under the other id. -/
theorem update_keeps_absent_fields_witness :
    ∃ q r', (UpdateRequest.mk "u" (some clientPatch)).UpdateInfo = some q ∧
      (GrpcServer.Update ⟨sampleMap⟩ ⟨"u", some clientPatch⟩ time2).2.sightings.lookup
        (UpdateRequest.mk "u" (some clientPatch)).Uuid = some r' ∧
      (q.ObservedAt = none →
        r'.Info.map (·.ObservedAt) = sampleRecord.Info.map (·.ObservedAt)) ∧
      (q.Location = none → r'.Info.map (·.Location) = sampleRecord.Info.map (·.Location)) ∧
      (q.Description = none →
        r'.Info.map (·.Description) = sampleRecord.Info.map (·.Description)) ∧
      (q.Color = none → r'.Info.map (·.Color) = sampleRecord.Info.map (·.Color)) ∧
      (q.Sound = none → r'.Info.map (·.Sound) = sampleRecord.Info.map (·.Sound)) ∧
      (q.DurationSeconds = none →
        r'.Info.map (·.DurationSeconds) = sampleRecord.Info.map (·.DurationSeconds)) ∧
      ∀ k, k ≠ (UpdateRequest.mk "u" (some clientPatch)).Uuid →
        (GrpcServer.Update ⟨sampleMap⟩ ⟨"u", some clientPatch⟩ time2).2.sightings.lookup k
          = sampleMap.lookup k :=
  update_keeps_absent_fields sampleMap _ ⟨"u", some clientPatch⟩ time2 sampleRecord
    (by decide) (Or.inl rfl)

/-- C2: after an accepted Update of a stored record, in either server, every payload
field whose patch entry is present holds the value of the patch, whatever that value is
(the empty string, zero and false included). -/
theorem update_sets_present_fields (m m' : SightingMap) (req : UpdateRequest)
    (now : Timestamp) (r : Sighting) (hr : m.lookup req.Uuid = some r)
    (hok : GrpcServer.Update ⟨m⟩ req now = (.ok (), ⟨m'⟩) ∨
      Workspace.Update ⟨m⟩ req now = (.ok (), ⟨m'⟩)) :
    ∃ q r', req.UpdateInfo = some q ∧ m'.lookup req.Uuid = some r' ∧
      (∀ v, q.ObservedAt = some v → r'.Info.map (·.ObservedAt) = some (some v)) ∧
      (∀ v, q.Location = some v → r'.Info.map (·.Location) = some v.Value) ∧
      (∀ v, q.Description = some v → r'.Info.map (·.Description) = some v.Value) ∧
      (∀ v, q.Color = some v → r'.Info.map (·.Color) = some (some v)) ∧
      (∀ v, q.Sound = some v → r'.Info.map (·.Sound) = some (some v)) ∧
      (∀ v, q.DurationSeconds = some v →
        r'.Info.map (·.DurationSeconds) = some (some v)) := by
  obtain ⟨q, r2, hq, hm, rfl⟩ := update_ok_inv m m' req now r hr hok
  exact ⟨q, { r2 with UpdatedAt := some now }, hq, AList.lookup_insert m,
    mergeUpdateInfo_present r r2 q hm⟩

/-- Witness of C2: a patch of zero values (empty location, sound false, duration 0) on
the sample record, in the workspace server. -/
theorem update_sets_present_fields_witness :
    ∃ q r', (UpdateRequest.mk "u" (some zeroPatch)).UpdateInfo = some q ∧
      (Workspace.Update ⟨sampleMap⟩ ⟨"u", some zeroPatch⟩ time2).2.sighting.lookup
        (UpdateRequest.mk "u" (some zeroPatch)).Uuid = some r' ∧
      (∀ v, q.ObservedAt = some v → r'.Info.map (·.ObservedAt) = some (some v)) ∧
      (∀ v, q.Location = some v → r'.Info.map (·.Location) = some v.Value) ∧
      (∀ v, q.Description = some v → r'.Info.map (·.Description) = some v.Value) ∧
      (∀ v, q.Color = some v → r'.Info.map (·.Color) = some (some v)) ∧
      (∀ v, q.Sound = some v → r'.Info.map (·.Sound) = some (some v)) ∧
      (∀ v, q.DurationSeconds = some v →
        r'.Info.map (·.DurationSeconds) = some (some v)) :=
  update_sets_present_fields sampleMap _ ⟨"u", some zeroPatch⟩ time2 sampleRecord
    (by decide) (Or.inr rfl)

/-- C3, as stated, fails: an Update whose update_info is supplied with every field
absent is accepted by both servers, and the record's updated_at, unset before, is the
time of the call afterwards. -/
theorem update_empty_patch_accepted :
    (GrpcServer.Update ⟨sampleMap⟩ ⟨"u", some emptyPatch⟩ time2).1 = .ok () ∧
    (Workspace.Update ⟨sampleMap⟩ ⟨"u", some emptyPatch⟩ time2).1 = .ok () ∧
    (sampleMap.lookup "u").map (·.UpdatedAt) = some none ∧
    ((GrpcServer.Update ⟨sampleMap⟩ ⟨"u", some emptyPatch⟩ time2).2.sightings.lookup "u").map
      (·.UpdatedAt) = some (some time2) ∧
    ((Workspace.Update ⟨sampleMap⟩ ⟨"u", some emptyPatch⟩ time2).2.sighting.lookup "u").map
      (·.UpdatedAt) = some (some time2) := by
  decide

/-- C3, amended: for a stored id, an Update whose update_info is missing gets
InvalidArgument and leaves the store as it was; an Update whose update_info is supplied
with every field absent is accepted, and changes nothing of the record but updated_at,
which becomes the time of the call. -/
theorem update_without_fields (m : SightingMap) (req : UpdateRequest) (now : Timestamp)
    (r : Sighting) (hr : m.lookup req.Uuid = some r) :
    (req.UpdateInfo = none →
      GrpcServer.Update ⟨m⟩ req now
        = (.status .InvalidArgument "update_info is required", ⟨m⟩) ∧
      Workspace.Update ⟨m⟩ req now
        = (.status .InvalidArgument "update_info is required", ⟨m⟩)) ∧
    (req.UpdateInfo = some emptyPatch →
      GrpcServer.Update ⟨m⟩ req now
        = (.ok (), ⟨m.insert req.Uuid { r with UpdatedAt := some now }⟩) ∧
      Workspace.Update ⟨m⟩ req now
        = (.ok (), ⟨m.insert req.Uuid { r with UpdatedAt := some now }⟩)) := by
  constructor
  · intro hq
    simp [GrpcServer.Update, Workspace.Update, hr, hq]
  · intro hq
    have hm : mergeUpdateInfo r emptyPatch = some r := by
      obtain ⟨u, i, c, up, d⟩ := r
      rfl
    simp [GrpcServer.Update, Workspace.Update, hr, hq, hm]

/-- Witness of C3 amended: the missing patch and the all-absent patch on the sample
record. -/
theorem update_without_fields_witness :
    (GrpcServer.Update ⟨sampleMap⟩ ⟨"u", none⟩ time2
        = (.status .InvalidArgument "update_info is required", ⟨sampleMap⟩) ∧
      Workspace.Update ⟨sampleMap⟩ ⟨"u", none⟩ time2
        = (.status .InvalidArgument "update_info is required", ⟨sampleMap⟩)) ∧
    (GrpcServer.Update ⟨sampleMap⟩ ⟨"u", some emptyPatch⟩ time2
        = (.ok (), ⟨sampleMap.insert "u" { sampleRecord with UpdatedAt := some time2 }⟩) ∧
      Workspace.Update ⟨sampleMap⟩ ⟨"u", some emptyPatch⟩ time2
        = (.ok (), ⟨sampleMap.insert "u" { sampleRecord with UpdatedAt := some time2 }⟩)) :=
  ⟨(update_without_fields sampleMap ⟨"u", none⟩ time2 sampleRecord (by decide)).1 rfl,
    (update_without_fields sampleMap ⟨"u", some emptyPatch⟩ time2 sampleRecord
      (by decide)).2 rfl⟩

/-- C4: for an id that is not a key of the map, Get, Delete and Update (whatever the
patch, a missing one included) each return NotFound, in both servers, and the store
after the call is the store before it. -/
theorem absent_id_not_found (m : SightingMap) (uuid : String)
    (h : m.lookup uuid = none) :
    GrpcServer.Get ⟨m⟩ ⟨uuid⟩
      = (.status .NotFound ("sighting with UUID " ++ uuid ++ " not found"), ⟨m⟩) ∧
    Workspace.Get ⟨m⟩ ⟨uuid⟩
      = (.status .NotFound ("sighting with UUID " ++ uuid ++ " not found"), ⟨m⟩) ∧
    (∀ now, GrpcServer.Delete ⟨m⟩ ⟨uuid⟩ now
      = (.status .NotFound ("sighting with UUID " ++ uuid ++ " not found"), ⟨m⟩)) ∧
    (∀ now, Workspace.Delete ⟨m⟩ ⟨uuid⟩ now
      = (.status .NotFound ("sighting with uuid " ++ uuid ++ " not found"), ⟨m⟩)) ∧
    (∀ patch now, GrpcServer.Update ⟨m⟩ ⟨uuid, patch⟩ now
      = (.status .NotFound ("sighting with UUID " ++ uuid ++ " not found"), ⟨m⟩)) ∧
    (∀ patch now, Workspace.Update ⟨m⟩ ⟨uuid, patch⟩ now
      = (.status .NotFound ("sighting with uuid " ++ uuid ++ " not found"), ⟨m⟩)) := by
  refine ⟨?_, ?_, ?_, ?_, ?_, ?_⟩ <;>
    simp [GrpcServer.Get, Workspace.Get, GrpcServer.Delete, Workspace.Delete,
      GrpcServer.Update, Workspace.Update, h]

/-- Witness of C4: the id `w` is not a key of the sample map. -/
theorem absent_id_not_found_witness :
    GrpcServer.Get ⟨sampleMap⟩ ⟨"w"⟩
      = (.status .NotFound ("sighting with UUID " ++ "w" ++ " not found"), ⟨sampleMap⟩) ∧
    Workspace.Get ⟨sampleMap⟩ ⟨"w"⟩
      = (.status .NotFound ("sighting with UUID " ++ "w" ++ " not found"), ⟨sampleMap⟩) ∧
    (∀ now, GrpcServer.Delete ⟨sampleMap⟩ ⟨"w"⟩ now
      = (.status .NotFound ("sighting with UUID " ++ "w" ++ " not found"), ⟨sampleMap⟩)) ∧
    (∀ now, Workspace.Delete ⟨sampleMap⟩ ⟨"w"⟩ now
      = (.status .NotFound ("sighting with uuid " ++ "w" ++ " not found"), ⟨sampleMap⟩)) ∧
    (∀ patch now, GrpcServer.Update ⟨sampleMap⟩ ⟨"w", patch⟩ now
      = (.status .NotFound ("sighting with UUID " ++ "w" ++ " not found"), ⟨sampleMap⟩)) ∧
    (∀ patch now, Workspace.Update ⟨sampleMap⟩ ⟨"w", patch⟩ now
      = (.status .NotFound ("sighting with uuid " ++ "w" ++ " not found"), ⟨sampleMap⟩)) :=
  absent_id_not_found sampleMap "w" (by decide)

/-- C5: in the week_1/grpc server, Create of any request on any store returns the
generated id, and Get of that id right afterwards returns the record with that uuid,
the payload of the request, created_at equal to the creation time and deleted_at
absent (updated_at is absent too). -/
theorem create_then_get (m : SightingMap) (req : CreateRequest) (newUUID : String)
    (now : Timestamp) :
    (GrpcServer.Create ⟨m⟩ req newUUID now).1 = .ok { Uuid := newUUID } ∧
    GrpcServer.Get (GrpcServer.Create ⟨m⟩ req newUUID now).2 { Uuid := newUUID }
      = (.ok { Sighting := some { Uuid := newUUID, Info := req.Info, CreatedAt := some now,
                                  UpdatedAt := none, DeletedAt := none } },
         (GrpcServer.Create ⟨m⟩ req newUUID now).2) := by
  simp [GrpcServer.Create, GrpcServer.Get]

/-- C6: Delete of a stored id succeeds in both servers; the record stays in the map
with deleted_at set to the time of the call and every other field as before, the
records under other ids are unchanged, and a Get of the id afterwards succeeds and
returns that record. -/
theorem delete_marks_record (m : SightingMap) (uuid : String) (now : Timestamp)
    (r : Sighting) (hr : m.lookup uuid = some r) :
    ∃ m', GrpcServer.Delete ⟨m⟩ ⟨uuid⟩ now = (.ok (), ⟨m'⟩) ∧
      Workspace.Delete ⟨m⟩ ⟨uuid⟩ now = (.ok (), ⟨m'⟩) ∧
      m'.lookup uuid = some { r with DeletedAt := some now } ∧
      (∀ k, k ≠ uuid → m'.lookup k = m.lookup k) ∧
      GrpcServer.Get ⟨m'⟩ ⟨uuid⟩
        = (.ok { Sighting := some { r with DeletedAt := some now } }, ⟨m'⟩) ∧
      Workspace.Get ⟨m'⟩ ⟨uuid⟩
        = (.ok { Sighting := some { r with DeletedAt := some now } }, ⟨m'⟩) := by
  refine ⟨m.insert uuid { r with DeletedAt := some now }, ?_, ?_, AList.lookup_insert m,
    fun k hk => AList.lookup_insert_ne hk, ?_, ?_⟩ <;>
    simp [GrpcServer.Delete, Workspace.Delete, GrpcServer.Get, Workspace.Get, hr]

/-- Witness of C6: Delete of the sample record at the later instant. -/
theorem delete_marks_record_witness :
    ∃ m', GrpcServer.Delete ⟨sampleMap⟩ ⟨"u"⟩ time2 = (.ok (), ⟨m'⟩) ∧
      Workspace.Delete ⟨sampleMap⟩ ⟨"u"⟩ time2 = (.ok (), ⟨m'⟩) ∧
      m'.lookup "u" = some { sampleRecord with DeletedAt := some time2 } ∧
      (∀ k, k ≠ "u" → m'.lookup k = sampleMap.lookup k) ∧
      GrpcServer.Get ⟨m'⟩ ⟨"u"⟩
        = (.ok { Sighting := some { sampleRecord with DeletedAt := some time2 } }, ⟨m'⟩) ∧
      Workspace.Get ⟨m'⟩ ⟨"u"⟩
        = (.ok { Sighting := some { sampleRecord with DeletedAt := some time2 } }, ⟨m'⟩) :=
  delete_marks_record sampleMap "u" time2 sampleRecord (by decide)

/-- C7, as stated, fails: a second Delete of the same id, at a later time, succeeds in
both servers and replaces the deleted_at that the first Delete had set. -/
theorem delete_again_overwrites_deleted_at :
    time1 ≠ time2 ∧
    ((GrpcServer.Delete ⟨sampleMap⟩ ⟨"u"⟩ time1).2.sightings.lookup "u").map (·.DeletedAt)
      = some (some time1) ∧
    (GrpcServer.Delete (GrpcServer.Delete ⟨sampleMap⟩ ⟨"u"⟩ time1).2 ⟨"u"⟩ time2).1 = .ok () ∧
    ((GrpcServer.Delete (GrpcServer.Delete ⟨sampleMap⟩ ⟨"u"⟩ time1).2
      ⟨"u"⟩ time2).2.sightings.lookup "u").map (·.DeletedAt) = some (some time2) ∧
    ((Workspace.Delete ⟨sampleMap⟩ ⟨"u"⟩ time1).2.sighting.lookup "u").map (·.DeletedAt)
      = some (some time1) ∧
    (Workspace.Delete (Workspace.Delete ⟨sampleMap⟩ ⟨"u"⟩ time1).2 ⟨"u"⟩ time2).1 = .ok () ∧
    ((Workspace.Delete (Workspace.Delete ⟨sampleMap⟩ ⟨"u"⟩ time1).2
      ⟨"u"⟩ time2).2.sighting.lookup "u").map (·.DeletedAt) = some (some time2) := by
  decide

/-- C7, amended: the deleted_at of a stored record is left as it is by every Update
call (any id, any patch, accepted or not), by a Delete of another id, and by a Create
whose generated id is not the record's key; a Delete of the record's own id succeeds,
also when deleted_at is already set, and sets deleted_at to the time of that call. -/
theorem deleted_at_after_later_calls (m : SightingMap) (k : String) (r : Sighting)
    (hr : m.lookup k = some r) :
    (∀ req now,
      ((GrpcServer.Update ⟨m⟩ req now).2.sightings.lookup k).map (·.DeletedAt)
        = some r.DeletedAt ∧
      ((Workspace.Update ⟨m⟩ req now).2.sighting.lookup k).map (·.DeletedAt)
        = some r.DeletedAt) ∧
    (∀ uuid now, uuid ≠ k →
      (GrpcServer.Delete ⟨m⟩ ⟨uuid⟩ now).2.sightings.lookup k = some r ∧
      (Workspace.Delete ⟨m⟩ ⟨uuid⟩ now).2.sighting.lookup k = some r) ∧
    (∀ req newUUID now, newUUID ≠ k →
      (GrpcServer.Create ⟨m⟩ req newUUID now).2.sightings.lookup k = some r ∧
      ∀ Validate, (Workspace.Create Validate ⟨m⟩ req newUUID now).2.sighting.lookup k
        = some r) ∧
    (∀ now,
      GrpcServer.Delete ⟨m⟩ ⟨k⟩ now
        = (.ok (), ⟨m.insert k { r with DeletedAt := some now }⟩) ∧
      Workspace.Delete ⟨m⟩ ⟨k⟩ now
        = (.ok (), ⟨m.insert k { r with DeletedAt := some now }⟩)) := by
  refine ⟨?_, ?_, ?_, ?_⟩
  · intro req now
    obtain ⟨r', h1, h2, _, _, h5⟩ := update_rest m req now k r hr
    simp [h1, h2, h5]
  · intro uuid now hne
    have hne' : k ≠ uuid := fun h => hne h.symm
    constructor
    · cases hl : m.lookup uuid <;>
        simp [GrpcServer.Delete, hl, hr, AList.lookup_insert_ne hne']
    · cases hl : m.lookup uuid <;>
        simp [Workspace.Delete, hl, hr, AList.lookup_insert_ne hne']
  · intro req newUUID now hne
    have hne' : k ≠ newUUID := fun h => hne h.symm
    refine ⟨by simp [GrpcServer.Create, hr, AList.lookup_insert_ne hne'], ?_⟩
    intro Validate
    cases hv : Validate req with
    | some err => simp [Workspace.Create, hv, hr]
    | none =>
      cases hi : req.Info <;>
        simp [Workspace.Create, hv, hi, hr, AList.lookup_insert_ne hne']
  · intro now
    simp [GrpcServer.Delete, Workspace.Delete, hr]

/-- Witness of C7 amended: the sample record after a Delete at the first instant; an
Update of it, a Delete of the other id and a Create under a new id keep its
deleted_at, and a Delete of it at the later instant replaces it. -/
theorem deleted_at_after_later_calls_witness :
    (((GrpcServer.Update ⟨sampleMap.insert "u" { sampleRecord with DeletedAt := some time1 }⟩
        ⟨"u", some clientPatch⟩ time2).2.sightings.lookup "u").map (·.DeletedAt)
        = some (some time1) ∧
      ((Workspace.Update ⟨sampleMap.insert "u" { sampleRecord with DeletedAt := some time1 }⟩
        ⟨"u", some clientPatch⟩ time2).2.sighting.lookup "u").map (·.DeletedAt)
        = some (some time1)) ∧
    ((GrpcServer.Delete ⟨sampleMap.insert "u" { sampleRecord with DeletedAt := some time1 }⟩
        ⟨"v"⟩ time2).2.sightings.lookup "u"
        = some { sampleRecord with DeletedAt := some time1 } ∧
      (Workspace.Delete ⟨sampleMap.insert "u" { sampleRecord with DeletedAt := some time1 }⟩
        ⟨"v"⟩ time2).2.sighting.lookup "u"
        = some { sampleRecord with DeletedAt := some time1 }) ∧
    (GrpcServer.Create ⟨sampleMap.insert "u" { sampleRecord with DeletedAt := some time1 }⟩
        ⟨some sampleInfo⟩ "w" time2).2.sightings.lookup "u"
        = some { sampleRecord with DeletedAt := some time1 } ∧
    (GrpcServer.Delete ⟨sampleMap.insert "u" { sampleRecord with DeletedAt := some time1 }⟩
        ⟨"u"⟩ time2).2.sightings.lookup "u"
        = some { sampleRecord with DeletedAt := some time2 } :=
  have h := deleted_at_after_later_calls
    (sampleMap.insert "u" { sampleRecord with DeletedAt := some time1 }) "u"
    { sampleRecord with DeletedAt := some time1 } (by decide)
  ⟨h.1 ⟨"u", some clientPatch⟩ time2, h.2.1 "v" time2 (by decide),
    (h.2.2.1 ⟨some sampleInfo⟩ "w" time2 (by decide)).1, by rw [(h.2.2.2 time2).1]; decide⟩

/-- C8: for a stored record and any request for its id, the payload after two Update
calls with that request is the payload after one, in both servers; and when the
record has a payload and the request carries a patch, both calls are accepted. -/
theorem update_twice_same_payload (m : SightingMap) (req : UpdateRequest)
    (t t' : Timestamp) (r : Sighting) (hr : m.lookup req.Uuid = some r) :
    ((GrpcServer.Update (GrpcServer.Update ⟨m⟩ req t).2 req t').2.sightings.lookup
        req.Uuid).map (·.Info)
      = ((GrpcServer.Update ⟨m⟩ req t).2.sightings.lookup req.Uuid).map (·.Info) ∧
    ((Workspace.Update (Workspace.Update ⟨m⟩ req t).2 req t').2.sighting.lookup
        req.Uuid).map (·.Info)
      = ((Workspace.Update ⟨m⟩ req t).2.sighting.lookup req.Uuid).map (·.Info) ∧
    (r.Info ≠ none → req.UpdateInfo ≠ none →
      (GrpcServer.Update ⟨m⟩ req t).1 = .ok () ∧
      (GrpcServer.Update (GrpcServer.Update ⟨m⟩ req t).2 req t').1 = .ok () ∧
      (Workspace.Update ⟨m⟩ req t).1 = .ok () ∧
      (Workspace.Update (Workspace.Update ⟨m⟩ req t).2 req t').1 = .ok ()) := by
  cases hq : req.UpdateInfo with
  | none => simp [GrpcServer.Update, Workspace.Update, hr, hq]
  | some q =>
    cases hm : mergeUpdateInfo r q with
    | none =>
      refine ⟨by simp [GrpcServer.Update, hr, hq, hm],
        by simp [Workspace.Update, hr, hq, hm], ?_⟩
      intro hI _
      obtain ⟨info, hinfo⟩ := Option.ne_none_iff_exists'.1 hI
      rw [mergeUpdateInfo_of_info r q info hinfo] at hm
      cases hm
    | some r2 =>
      have hm2 := mergeUpdateInfo_again r r2 q (some t) hm
      simp [GrpcServer.Update, Workspace.Update, hr, hq, hm, hm2]

/-- Witness of C8: the client's patch applied twice to the sample record. -/
theorem update_twice_same_payload_witness :
    ((GrpcServer.Update (GrpcServer.Update ⟨sampleMap⟩ ⟨"u", some clientPatch⟩ time1).2
        ⟨"u", some clientPatch⟩ time2).2.sightings.lookup "u").map (·.Info)
      = ((GrpcServer.Update ⟨sampleMap⟩ ⟨"u", some clientPatch⟩ time1).2.sightings.lookup
          "u").map (·.Info) ∧
    (GrpcServer.Update ⟨sampleMap⟩ ⟨"u", some clientPatch⟩ time1).1 = .ok () ∧
    (GrpcServer.Update (GrpcServer.Update ⟨sampleMap⟩ ⟨"u", some clientPatch⟩ time1).2
        ⟨"u", some clientPatch⟩ time2).1 = .ok () ∧
    (Workspace.Update ⟨sampleMap⟩ ⟨"u", some clientPatch⟩ time1).1 = .ok () ∧
    (Workspace.Update (Workspace.Update ⟨sampleMap⟩ ⟨"u", some clientPatch⟩ time1).2
        ⟨"u", some clientPatch⟩ time2).1 = .ok () :=
  have h := update_twice_same_payload sampleMap ⟨"u", some clientPatch⟩ time1 time2
    sampleRecord (by decide)
  ⟨h.1, h.2.2 (by decide) (by decide)⟩

/-- C9: GetAll succeeds on every store, in both servers, and leaves it as it is; the
returned list has one entry per key of the map, the record stored under that key
(soft-deleted or not), the keys being pairwise distinct; and TotalCount is the number
of entries when that number is below 2^31. -/
theorem getAll_lists_every_record (m : SightingMap) :
    ∃ resp, GrpcServer.GetAll ⟨m⟩ = (.ok resp, ⟨m⟩) ∧
      Workspace.GetAll ⟨m⟩ = (.ok resp, ⟨m⟩) ∧
      m.keys.Nodup ∧
      resp.Sightings = m.keys.filterMap (fun k => m.lookup k) ∧
      resp.Sightings.length = m.keys.length ∧
      (∀ k, (m.lookup k).isSome ↔ k ∈ m.keys) ∧
      ((resp.Sightings.length : Int) < 2 ^ 31 →
        resp.TotalCount = resp.Sightings.length) := by
  refine ⟨_, rfl, rfl, m.keys_nodup, ?_, ?_, ?_, ?_⟩
  · exact values_eq_filterMap_keys m.entries m.nodupKeys
  · simp [AList.keys, List.keys]
  · intro k
    exact AList.lookup_isSome.trans AList.mem_keys
  · intro h
    simp only [List.length_map] at h ⊢
    unfold int32
    omega

/-- Witness of C9: the sample map, after a Delete of `u`, still lists both records. -/
theorem getAll_lists_every_record_witness :
    ∃ resp,
      GrpcServer.GetAll (GrpcServer.Delete ⟨sampleMap⟩ ⟨"u"⟩ time2).2
        = (.ok resp, (GrpcServer.Delete ⟨sampleMap⟩ ⟨"u"⟩ time2).2) ∧
      resp.Sightings = [{ sampleRecord with DeletedAt := some time2 }, otherRecord] ∧
      resp.TotalCount = 2 := by
  obtain ⟨resp, h1, -, -, h4, -, -, h7⟩ :=
    getAll_lists_every_record (GrpcServer.Delete ⟨sampleMap⟩ ⟨"u"⟩ time2).2.sightings
  have h8 : resp.Sightings = [{ sampleRecord with DeletedAt := some time2 }, otherRecord] := by
    rw [h4]
    decide
  refine ⟨resp, h1, h8, ?_⟩
  rw [h7 (by rw [h8]; decide), h8]
  rfl

/-- C10 fails in the week_1/grpc server: Create accepts a request without info and
stores a record whose Info is nil; an Update of that record with a patch that sets a
field then ends in a nil-pointer panic, not in a success or a status error.  The
workspace server closes this path: its Create answers InvalidArgument to a request
without info and stores nothing. -/
theorem grpc_update_panics_on_missing_info :
    (GrpcServer.Create ⟨∅⟩ ⟨none⟩ "u" time1).1 = .ok { Uuid := "u" } ∧
    (GrpcServer.Create ⟨∅⟩ ⟨none⟩ "u" time1).2.sightings.lookup "u"
      = some { Uuid := "u", Info := none, CreatedAt := some time1,
               UpdatedAt := none, DeletedAt := none } ∧
    (GrpcServer.Update (GrpcServer.Create ⟨∅⟩ ⟨none⟩ "u" time1).2
      ⟨"u", some clientPatch⟩ time2).1 = .panic ∧
    (∀ Validate, ∃ msg, Workspace.Create Validate Workspace.NewUfoService ⟨none⟩ "u" time1
      = (.status .InvalidArgument msg, Workspace.NewUfoService)) := by
  refine ⟨by decide, by decide, by decide, ?_⟩
  intro Validate
  cases hv : Validate ⟨none⟩ with
  | some err => exact ⟨"validation error: " ++ err, by simp [Workspace.Create, hv]⟩
  | none => exact ⟨"info is required", by simp [Workspace.Create, hv]⟩

end Ufo

/-! ## Lemmas on sequences of calls -/

namespace Ufo

/-- A merge never takes the payload of a record away. -/
theorem mergeUpdateInfo_info (r r2 : Sighting) (q : SightingUpdateInfo)
    (hm : mergeUpdateInfo r q = some r2) (hI : r.Info ≠ none) : r2.Info ≠ none := by
  obtain ⟨info, hinfo⟩ := Option.ne_none_iff_exists'.1 hI
  rw [mergeUpdateInfo_of_info r q info hinfo] at hm
  cases hm
  simp

/-- An Update call, accepted or not, adds no key to the map. -/
theorem update_no_new_key (m : SightingMap) (req : UpdateRequest) (now : Timestamp)
    (k : String) (hk : m.lookup k = none) :
    (GrpcServer.Update ⟨m⟩ req now).2.sightings.lookup k = none ∧
    (Workspace.Update ⟨m⟩ req now).2.sighting.lookup k = none := by
  cases hl : m.lookup req.Uuid with
  | none => simp [GrpcServer.Update, Workspace.Update, hl, hk]
  | some r0 =>
    cases hq : req.UpdateInfo with
    | none => simp [GrpcServer.Update, Workspace.Update, hl, hq, hk]
    | some q =>
      cases hm : mergeUpdateInfo r0 q with
      | none => simp [GrpcServer.Update, Workspace.Update, hl, hq, hm, hk]
      | some r2 =>
        have hne : k ≠ req.Uuid := by
          rintro rfl
          rw [hk] at hl
          cases hl
        simp [GrpcServer.Update, Workspace.Update, hl, hq, hm, hk,
          AList.lookup_insert_ne hne]

/-- An Update call, accepted or not, keeps the payload of a record that has one. -/
theorem update_keeps_info (m : SightingMap) (req : UpdateRequest) (now : Timestamp)
    (k : String) (r : Sighting) (hr : m.lookup k = some r) (hI : r.Info ≠ none) :
    ∀ r', (GrpcServer.Update ⟨m⟩ req now).2.sightings.lookup k = some r' ∨
        (Workspace.Update ⟨m⟩ req now).2.sighting.lookup k = some r' → r'.Info ≠ none := by
  intro r' h
  cases hl : m.lookup req.Uuid with
  | none =>
    simp only [GrpcServer.Update, Workspace.Update, hl, hr, or_self] at h
    cases h
    exact hI
  | some r0 =>
    cases hq : req.UpdateInfo with
    | none =>
      simp only [GrpcServer.Update, Workspace.Update, hl, hq, hr, or_self] at h
      cases h
      exact hI
    | some q =>
      cases hm : mergeUpdateInfo r0 q with
      | none =>
        simp only [GrpcServer.Update, Workspace.Update, hl, hq, hm, hr, or_self] at h
        cases h
        exact hI
      | some r2 =>
        by_cases hk : k = req.Uuid
        · subst hk
          have hrr : r0 = r := Option.some.inj (hl.symm.trans hr)
          subst hrr
          simp only [GrpcServer.Update, Workspace.Update, hl, hq, hm, AList.lookup_insert,
            or_self] at h
          cases h
          exact mergeUpdateInfo_info r0 r2 q hm hI
        · simp only [GrpcServer.Update, Workspace.Update, hl, hq, hm,
            AList.lookup_insert_ne hk, hr, or_self] at h
          cases h
          exact hI

/-- What a Delete call, accepted or not, leaves of a stored record under any key: all
of it but deleted_at. -/
theorem delete_rest (m : SightingMap) (req : DeleteRequest) (now : Timestamp) (k : String)
    (r : Sighting) (hr : m.lookup k = some r) :
    ∃ r', (GrpcServer.Delete ⟨m⟩ req now).2.sightings.lookup k = some r' ∧
      (Workspace.Delete ⟨m⟩ req now).2.sighting.lookup k = some r' ∧
      r'.Uuid = r.Uuid ∧ r'.Info = r.Info ∧ r'.CreatedAt = r.CreatedAt ∧
      r'.UpdatedAt = r.UpdatedAt := by
  cases hl : m.lookup req.Uuid with
  | none =>
    exact ⟨r, by simp [GrpcServer.Delete, hl, hr], by simp [Workspace.Delete, hl, hr],
      rfl, rfl, rfl, rfl⟩
  | some r0 =>
    by_cases hk : k = req.Uuid
    · subst hk
      have hrr : r0 = r := Option.some.inj (hl.symm.trans hr)
      subst hrr
      exact ⟨{ r0 with DeletedAt := some now }, by simp [GrpcServer.Delete, hl],
        by simp [Workspace.Delete, hl], rfl, rfl, rfl, rfl⟩
    · exact ⟨r, by simp [GrpcServer.Delete, hl, AList.lookup_insert_ne hk, hr],
        by simp [Workspace.Delete, hl, AList.lookup_insert_ne hk, hr], rfl, rfl, rfl, rfl⟩

/-- A Delete call, accepted or not, adds no key to the map. -/
theorem delete_no_new_key (m : SightingMap) (req : DeleteRequest) (now : Timestamp)
    (k : String) (hk : m.lookup k = none) :
    (GrpcServer.Delete ⟨m⟩ req now).2.sightings.lookup k = none ∧
    (Workspace.Delete ⟨m⟩ req now).2.sighting.lookup k = none := by
  cases hl : m.lookup req.Uuid with
  | none => simp [GrpcServer.Delete, Workspace.Delete, hl, hk]
  | some r0 =>
    have hne : k ≠ req.Uuid := by
      rintro rfl
      rw [hk] at hl
      cases hl
    simp [GrpcServer.Delete, Workspace.Delete, hl, hk, AList.lookup_insert_ne hne]

/-- One call on the week_1/grpc store keeps "the record under key k has uuid k". -/
theorem grpc_step_uuid (s : GrpcServer.ufoService) (c : GrpcServer.Call)
    (h : ∀ k r, s.sightings.lookup k = some r → r.Uuid = k) :
    ∀ k r, (GrpcServer.step s c).sightings.lookup k = some r → r.Uuid = k := by
  obtain ⟨m⟩ := s
  intro k r' h'
  cases c with
  | create req newUUID now =>
    by_cases hk : k = newUUID
    · subst hk
      simp only [GrpcServer.step, GrpcServer.Create, AList.lookup_insert] at h'
      cases h'
      rfl
    · simp only [GrpcServer.step, GrpcServer.Create, AList.lookup_insert_ne hk] at h'
      exact h k r' h'
  | update req now =>
    cases hl : m.lookup k with
    | none =>
      have hn := (update_no_new_key m req now k hl).1
      simp only [GrpcServer.step] at h'
      rw [hn] at h'
      cases h'
    | some r =>
      obtain ⟨r2, h1, _, h3, _, _⟩ := update_rest m req now k r hl
      simp only [GrpcServer.step] at h'
      rw [h1] at h'
      cases h'
      rw [h3]
      exact h k r hl
  | delete req now =>
    cases hl : m.lookup k with
    | none =>
      have hn := (delete_no_new_key m req now k hl).1
      simp only [GrpcServer.step] at h'
      rw [hn] at h'
      cases h'
    | some r =>
      obtain ⟨r2, h1, _, h3, _, _, _⟩ := delete_rest m req now k r hl
      simp only [GrpcServer.step] at h'
      rw [h1] at h'
      cases h'
      rw [h3]
      exact h k r hl

/-- One call on the workspace store keeps "the record under key k has uuid k and a
payload". -/
theorem workspace_step_inv (Validate : CreateRequest → Option String)
    (u : Workspace.ufoService) (c : Workspace.Call)
    (h : ∀ k r, u.sighting.lookup k = some r → r.Uuid = k ∧ r.Info ≠ none) :
    ∀ k r, (Workspace.step Validate u c).sighting.lookup k = some r →
      r.Uuid = k ∧ r.Info ≠ none := by
  obtain ⟨m⟩ := u
  intro k r' h'
  cases c with
  | create rq newUUID now =>
    cases hv : Validate rq with
    | some err =>
      simp only [Workspace.step, Workspace.Create, hv] at h'
      exact h k r' h'
    | none =>
      cases hi : rq.Info with
      | none =>
        simp only [Workspace.step, Workspace.Create, hv, hi] at h'
        exact h k r' h'
      | some info =>
        by_cases hk : k = newUUID
        · subst hk
          simp only [Workspace.step, Workspace.Create, hv, hi, AList.lookup_insert] at h'
          cases h'
          simp
        · simp only [Workspace.step, Workspace.Create, hv, hi,
            AList.lookup_insert_ne hk] at h'
          exact h k r' h'
  | update req now =>
    cases hl : m.lookup k with
    | none =>
      have hn := (update_no_new_key m req now k hl).2
      simp only [Workspace.step] at h'
      rw [hn] at h'
      cases h'
    | some r =>
      obtain ⟨r2, _, h2, h3, _, _⟩ := update_rest m req now k r hl
      have hI := update_keeps_info m req now k r hl (h k r hl).2 r' (Or.inr h')
      simp only [Workspace.step] at h'
      rw [h2] at h'
      cases h'
      exact ⟨h3.trans (h k r hl).1, hI⟩
  | delete req now =>
    cases hl : m.lookup k with
    | none =>
      have hn := (delete_no_new_key m req now k hl).2
      simp only [Workspace.step] at h'
      rw [hn] at h'
      cases h'
    | some r =>
      obtain ⟨r2, _, h2, h3, h4, _, _⟩ := delete_rest m req now k r hl
      simp only [Workspace.step] at h'
      rw [h2] at h'
      cases h'
      exact ⟨h3.trans (h k r hl).1, by rw [h4]; exact (h k r hl).2⟩

/-- In every store the week_1/grpc server reaches, the record under key k has uuid k. -/
theorem grpc_run_uuid (calls : List GrpcServer.Call) :
    ∀ k r, (GrpcServer.run calls).sightings.lookup k = some r → r.Uuid = k := by
  have key : ∀ (cs : List GrpcServer.Call) (s : GrpcServer.ufoService),
      (∀ k r, s.sightings.lookup k = some r → r.Uuid = k) →
      ∀ k r, (cs.foldl GrpcServer.step s).sightings.lookup k = some r → r.Uuid = k := by
    intro cs
    induction cs with
    | nil => intro s hs; exact hs
    | cons c cs ih => intro s hs; exact ih _ (grpc_step_uuid s c hs)
  refine key calls _ ?_
  intro k r h
  simp at h

/-- In every store the workspace server reaches, the record under key k has uuid k and
a payload. -/
theorem workspace_run_inv (Validate : CreateRequest → Option String)
    (calls : List Workspace.Call) :
    ∀ k r, (Workspace.run Validate calls).sighting.lookup k = some r →
      r.Uuid = k ∧ r.Info ≠ none := by
  have key : ∀ (cs : List Workspace.Call) (u : Workspace.ufoService),
      (∀ k r, u.sighting.lookup k = some r → r.Uuid = k ∧ r.Info ≠ none) →
      ∀ k r, (cs.foldl (Workspace.step Validate) u).sighting.lookup k = some r →
        r.Uuid = k ∧ r.Info ≠ none := by
    intro cs
    induction cs with
    | nil => intro u hu; exact hu
    | cons c cs ih => intro u hu; exact ih _ (workspace_step_inv Validate u c hu)
  refine key calls _ ?_
  intro k r h
  simp [Workspace.NewUfoService] at h

/-! ## The claims, continued -/

/-- C11: every Update call and every Delete call, accepted or not, on any store, in
either server, leaves each stored record in the map under its key with the uuid and
the created_at it had; and in every store either server reaches from the empty one by
Create, Update and Delete calls, the record under key k has uuid k. -/
theorem uuid_and_created_at_immutable (m : SightingMap) (k : String) (r : Sighting)
    (hr : m.lookup k = some r) :
    (∀ req now, ∃ r', (GrpcServer.Update ⟨m⟩ req now).2.sightings.lookup k = some r' ∧
      (Workspace.Update ⟨m⟩ req now).2.sighting.lookup k = some r' ∧
      r'.Uuid = r.Uuid ∧ r'.CreatedAt = r.CreatedAt) ∧
    (∀ req now, ∃ r', (GrpcServer.Delete ⟨m⟩ req now).2.sightings.lookup k = some r' ∧
      (Workspace.Delete ⟨m⟩ req now).2.sighting.lookup k = some r' ∧
      r'.Uuid = r.Uuid ∧ r'.CreatedAt = r.CreatedAt) ∧
    (∀ calls k' r', (GrpcServer.run calls).sightings.lookup k' = some r' → r'.Uuid = k') ∧
    (∀ Validate calls k' r',
      (Workspace.run Validate calls).sighting.lookup k' = some r' → r'.Uuid = k') := by
  refine ⟨?_, ?_, grpc_run_uuid, ?_⟩
  · intro req now
    obtain ⟨r', h1, h2, h3, h4, _⟩ := update_rest m req now k r hr
    exact ⟨r', h1, h2, h3, h4⟩
  · intro req now
    obtain ⟨r', h1, h2, h3, _, h5, _⟩ := delete_rest m req now k r hr
    exact ⟨r', h1, h2, h3, h5⟩
  · intro Validate calls k' r' h
    exact (workspace_run_inv Validate calls k' r' h).1

/-- Witness of C11: the sample record through an Update and a Delete, and the record a
Create, an Update and a Delete leave under the id `a` in the week_1/grpc server. -/
theorem uuid_and_created_at_immutable_witness :
    (∃ r', (GrpcServer.Update ⟨sampleMap⟩ ⟨"u", some clientPatch⟩ time2).2.sightings.lookup "u"
        = some r' ∧
      (Workspace.Update ⟨sampleMap⟩ ⟨"u", some clientPatch⟩ time2).2.sighting.lookup "u"
        = some r' ∧
      r'.Uuid = sampleRecord.Uuid ∧ r'.CreatedAt = sampleRecord.CreatedAt) ∧
    (∃ r', (GrpcServer.Delete ⟨sampleMap⟩ ⟨"u"⟩ time2).2.sightings.lookup "u" = some r' ∧
      (Workspace.Delete ⟨sampleMap⟩ ⟨"u"⟩ time2).2.sighting.lookup "u" = some r' ∧
      r'.Uuid = sampleRecord.Uuid ∧ r'.CreatedAt = sampleRecord.CreatedAt) ∧
    (GrpcServer.run [.create ⟨some sampleInfo⟩ "a" time1,
        .update ⟨"a", some clientPatch⟩ time2, .delete ⟨"a"⟩ time2]).sightings.lookup "a"
      = some { Uuid := "a", Info := some { sampleInfo with Description := "seen again",
                                                           Color := some { Value := "Red" } },
               CreatedAt := some time1, UpdatedAt := some time2,
               DeletedAt := some time2 } ∧
    ({ Uuid := "a", Info := some { sampleInfo with Description := "seen again",
                                                   Color := some { Value := "Red" } },
       CreatedAt := some time1, UpdatedAt := some time2,
       DeletedAt := some time2 } : Sighting).Uuid = "a" :=
  have h := uuid_and_created_at_immutable sampleMap "u" sampleRecord (by decide)
  ⟨h.1 ⟨"u", some clientPatch⟩ time2, h.2.1 ⟨"u"⟩ time2, by decide,
    h.2.2.1 [.create ⟨some sampleInfo⟩ "a" time1, .update ⟨"a", some clientPatch⟩ time2,
      .delete ⟨"a"⟩ time2] "a" _ (by decide)⟩

/-- C12: an accepted Update at time `now`, in either server, leaves the record with
updated_at equal to `now`, whatever updated_at and deleted_at were before, and with
its created_at; so when the creation time is before `now`, created_at is before
updated_at afterwards. -/
theorem update_refreshes_updated_at (m m' : SightingMap) (req : UpdateRequest)
    (now : Timestamp) (r : Sighting) (hr : m.lookup req.Uuid = some r)
    (hok : GrpcServer.Update ⟨m⟩ req now = (.ok (), ⟨m'⟩) ∨
      Workspace.Update ⟨m⟩ req now = (.ok (), ⟨m'⟩)) :
    ∃ r', m'.lookup req.Uuid = some r' ∧ r'.UpdatedAt = some now ∧
      r'.CreatedAt = r.CreatedAt ∧ r'.DeletedAt = r.DeletedAt ∧
      (∀ c, r.CreatedAt = some c → c.before now →
        ∃ c' u', r'.CreatedAt = some c' ∧ r'.UpdatedAt = some u' ∧ c'.before u') := by
  obtain ⟨q, r2, _, hm, rfl⟩ := update_ok_inv m m' req now r hr hok
  obtain ⟨_, h2, _, h4⟩ := mergeUpdateInfo_rest r r2 q hm
  refine ⟨{ r2 with UpdatedAt := some now }, AList.lookup_insert m, rfl, h2, h4, ?_⟩
  intro c hc hlt
  exact ⟨c, now, h2.trans hc, rfl, hlt⟩

/-- Witness of C12: the sample record, soft-deleted at the first instant and updated at
the first instant before, takes the client's patch at the later instant. -/
theorem update_refreshes_updated_at_witness :
    ∃ r', (GrpcServer.Update
        ⟨sampleMap.insert "u" { sampleRecord with UpdatedAt := some time1,
                                                  DeletedAt := some time1 }⟩
        ⟨"u", some clientPatch⟩ time2).2.sightings.lookup "u" = some r' ∧
      r'.UpdatedAt = some time2 ∧ r'.CreatedAt = some time1 ∧ r'.DeletedAt = some time1 ∧
      ∃ c' u', r'.CreatedAt = some c' ∧ r'.UpdatedAt = some u' ∧ c'.before u' := by
  obtain ⟨r', h1, h2, h3, h4, h5⟩ := update_refreshes_updated_at
    (sampleMap.insert "u" { sampleRecord with UpdatedAt := some time1,
                                              DeletedAt := some time1 }) _
    ⟨"u", some clientPatch⟩ time2
    { sampleRecord with UpdatedAt := some time1, DeletedAt := some time1 }
    (by decide) (Or.inl rfl)
  exact ⟨r', h1, h2, h3, h4, h5 time1 rfl (by decide)⟩

/-- C13: Create in the week_1/grpc server succeeds on every request, and Create in the
workspace server succeeds on every request that passes validation and carries a
payload; both return the generated id and store one record under it; when that id is
not yet a key, every record of the map is still there unchanged and the entries of
the map are the old ones plus the new record. -/
theorem create_adds_one_record (m : SightingMap) (req : CreateRequest) (newUUID : String)
    (now : Timestamp) :
    GrpcServer.Create ⟨m⟩ req newUUID now
      = (.ok { Uuid := newUUID },
         ⟨m.insert newUUID { Uuid := newUUID, Info := req.Info, CreatedAt := some now,
                             UpdatedAt := none, DeletedAt := none }⟩) ∧
    (∀ Validate, Validate req = none → req.Info ≠ none →
      Workspace.Create Validate ⟨m⟩ req newUUID now
        = (.ok { Uuid := newUUID },
           ⟨m.insert newUUID { Uuid := newUUID, Info := req.Info, CreatedAt := some now,
                               UpdatedAt := none, DeletedAt := none }⟩)) ∧
    (m.lookup newUUID = none →
      (∀ k r, m.lookup k = some r →
        (m.insert newUUID { Uuid := newUUID, Info := req.Info, CreatedAt := some now,
                            UpdatedAt := none, DeletedAt := none }).lookup k = some r) ∧
      (m.insert newUUID { Uuid := newUUID, Info := req.Info, CreatedAt := some now,
                          UpdatedAt := none, DeletedAt := none }).entries
        = ⟨newUUID, { Uuid := newUUID, Info := req.Info, CreatedAt := some now,
                      UpdatedAt := none, DeletedAt := none }⟩ :: m.entries) := by
  refine ⟨rfl, ?_, ?_⟩
  · intro Validate hv hi
    obtain ⟨info, hinfo⟩ := Option.ne_none_iff_exists'.1 hi
    simp [Workspace.Create, hv, hinfo]
  · intro hnew
    refine ⟨?_, AList.insert_entries_of_neg (AList.lookup_eq_none.1 hnew)⟩
    intro k r hk
    have hne : k ≠ newUUID := by
      rintro rfl
      rw [hnew] at hk
      cases hk
    rw [AList.lookup_insert_ne hne]
    exact hk

/-- Witness of C13: Create of the sample payload under the new id `w` on the sample
map, in the workspace server with a validator that accepts every request. -/
theorem create_adds_one_record_witness :
    Workspace.Create (fun _ => none) ⟨sampleMap⟩ ⟨some sampleInfo⟩ "w" time2
      = (.ok { Uuid := "w" },
         ⟨sampleMap.insert "w" { Uuid := "w", Info := some sampleInfo,
                                 CreatedAt := some time2, UpdatedAt := none,
                                 DeletedAt := none }⟩) ∧
    (sampleMap.insert "w" { Uuid := "w", Info := some sampleInfo, CreatedAt := some time2,
                            UpdatedAt := none, DeletedAt := none }).lookup "u"
      = some sampleRecord ∧
    (sampleMap.insert "w" { Uuid := "w", Info := some sampleInfo, CreatedAt := some time2,
                            UpdatedAt := none, DeletedAt := none }).entries
      = ⟨"w", { Uuid := "w", Info := some sampleInfo, CreatedAt := some time2,
                UpdatedAt := none, DeletedAt := none }⟩ :: sampleMap.entries :=
  have h := create_adds_one_record sampleMap ⟨some sampleInfo⟩ "w" time2
  ⟨h.2.1 (fun _ => none) rfl (by decide), (h.2.2 (by decide)).1 "u" sampleRecord (by decide),
    (h.2.2 (by decide)).2⟩

/-- The payload of a stored record after an Update call that carries a patch, in both
servers and whether the call is accepted or panics: the patch merged into the payload
when there is one, and still no payload when there is none; with a payload the call is
accepted. -/
theorem update_payload (m : SightingMap) (uuid : String) (q : SightingUpdateInfo)
    (now : Timestamp) (r : Sighting) (hr : m.lookup uuid = some r) :
    ∃ r', (GrpcServer.Update ⟨m⟩ ⟨uuid, some q⟩ now).2.sightings.lookup uuid = some r' ∧
      (Workspace.Update ⟨m⟩ ⟨uuid, some q⟩ now).2.sighting.lookup uuid = some r' ∧
      r'.Info = r.Info.map (fun info =>
        { ObservedAt := q.ObservedAt.orElse (fun _ => info.ObservedAt)
          Location := (q.Location.map (fun v => v.Value)).getD info.Location
          Description := (q.Description.map (fun v => v.Value)).getD info.Description
          Color := q.Color.orElse (fun _ => info.Color)
          Sound := q.Sound.orElse (fun _ => info.Sound)
          DurationSeconds := q.DurationSeconds.orElse (fun _ => info.DurationSeconds) }) ∧
      (r.Info ≠ none →
        (GrpcServer.Update ⟨m⟩ ⟨uuid, some q⟩ now).1 = .ok () ∧
        (Workspace.Update ⟨m⟩ ⟨uuid, some q⟩ now).1 = .ok ()) := by
  cases hI : r.Info with
  | none =>
    have hm := mergeUpdateInfo_of_nil r q hI
    by_cases hq : q = emptyPatch
    · rw [if_pos hq] at hm
      exact ⟨{ r with UpdatedAt := some now }, by simp [GrpcServer.Update, hr, hm],
        by simp [Workspace.Update, hr, hm], by simp [hI], by simp⟩
    · rw [if_neg hq] at hm
      exact ⟨r, by simp [GrpcServer.Update, hr, hm], by simp [Workspace.Update, hr, hm],
        by simp [hI], by simp⟩
  | some info =>
    obtain ⟨r2, hm, hinfo⟩ : ∃ r2, mergeUpdateInfo r q = some r2 ∧ r2.Info = some
        { ObservedAt := q.ObservedAt.orElse (fun _ => info.ObservedAt)
          Location := (q.Location.map (fun v => v.Value)).getD info.Location
          Description := (q.Description.map (fun v => v.Value)).getD info.Description
          Color := q.Color.orElse (fun _ => info.Color)
          Sound := q.Sound.orElse (fun _ => info.Sound)
          DurationSeconds := q.DurationSeconds.orElse (fun _ => info.DurationSeconds) } :=
      ⟨_, mergeUpdateInfo_of_info r q info hI, rfl⟩
    exact ⟨{ r2 with UpdatedAt := some now }, by simp [GrpcServer.Update, hr, hm],
      by simp [Workspace.Update, hr, hm], by simp [hinfo],
      fun _ => ⟨by simp [GrpcServer.Update, hr, hm], by simp [Workspace.Update, hr, hm]⟩⟩

/-- Both servers leave the same map after an Update call. -/
theorem update_same_map (m : SightingMap) (req : UpdateRequest) (now : Timestamp) :
    (Workspace.Update ⟨m⟩ req now).2.sighting = (GrpcServer.Update ⟨m⟩ req now).2.sightings := by
  cases hl : m.lookup req.Uuid with
  | none => simp [GrpcServer.Update, Workspace.Update, hl]
  | some r0 =>
    cases hq : req.UpdateInfo with
    | none => simp [GrpcServer.Update, Workspace.Update, hl, hq]
    | some q =>
      cases hm : mergeUpdateInfo r0 q <;>
        simp [GrpcServer.Update, Workspace.Update, hl, hq, hm]

/-- The payload of a stored record after two Update calls that carry the patches `q1`
and then `q2`, in both servers: the two merges one after the other; with a payload
both calls are accepted. -/
theorem update_payload_twice (m : SightingMap) (uuid : String) (q1 q2 : SightingUpdateInfo)
    (t t' : Timestamp) (r : Sighting) (hr : m.lookup uuid = some r) :
    ∃ r2,
      (GrpcServer.Update (GrpcServer.Update ⟨m⟩ ⟨uuid, some q1⟩ t).2
        ⟨uuid, some q2⟩ t').2.sightings.lookup uuid = some r2 ∧
      (Workspace.Update (Workspace.Update ⟨m⟩ ⟨uuid, some q1⟩ t).2
        ⟨uuid, some q2⟩ t').2.sighting.lookup uuid = some r2 ∧
      r2.Info = (r.Info.map (fun info =>
        ({ ObservedAt := q1.ObservedAt.orElse (fun _ => info.ObservedAt)
           Location := (q1.Location.map (fun v => v.Value)).getD info.Location
           Description := (q1.Description.map (fun v => v.Value)).getD info.Description
           Color := q1.Color.orElse (fun _ => info.Color)
           Sound := q1.Sound.orElse (fun _ => info.Sound)
           DurationSeconds := q1.DurationSeconds.orElse (fun _ => info.DurationSeconds) }
          : SightingInfo))).map (fun info =>
        { ObservedAt := q2.ObservedAt.orElse (fun _ => info.ObservedAt)
          Location := (q2.Location.map (fun v => v.Value)).getD info.Location
          Description := (q2.Description.map (fun v => v.Value)).getD info.Description
          Color := q2.Color.orElse (fun _ => info.Color)
          Sound := q2.Sound.orElse (fun _ => info.Sound)
          DurationSeconds := q2.DurationSeconds.orElse (fun _ => info.DurationSeconds) }) ∧
      (r.Info ≠ none →
        (GrpcServer.Update ⟨m⟩ ⟨uuid, some q1⟩ t).1 = .ok () ∧
        (GrpcServer.Update (GrpcServer.Update ⟨m⟩ ⟨uuid, some q1⟩ t).2
          ⟨uuid, some q2⟩ t').1 = .ok () ∧
        (Workspace.Update ⟨m⟩ ⟨uuid, some q1⟩ t).1 = .ok () ∧
        (Workspace.Update (Workspace.Update ⟨m⟩ ⟨uuid, some q1⟩ t).2
          ⟨uuid, some q2⟩ t').1 = .ok ()) := by
  obtain ⟨r1, hg1, _, hi1, hok1⟩ := update_payload m uuid q1 t r hr
  obtain ⟨r2, hg2, hw2, hi2, hok2⟩ :=
    update_payload (GrpcServer.Update ⟨m⟩ ⟨uuid, some q1⟩ t).2.sightings uuid q2 t' r1 hg1
  have e : (Workspace.Update ⟨m⟩ ⟨uuid, some q1⟩ t).2
      = ⟨(GrpcServer.Update ⟨m⟩ ⟨uuid, some q1⟩ t).2.sightings⟩ :=
    congrArg Workspace.ufoService.mk (update_same_map m ⟨uuid, some q1⟩ t)
  refine ⟨r2, hg2, by rw [e]; exact hw2, by rw [hi2, hi1], ?_⟩
  intro hI
  have hI1 : r1.Info ≠ none := by
    rw [hi1]
    simpa using hI
  exact ⟨(hok1 hI).1, (hok2 hI1).1, (hok1 hI).2, by rw [e]; exact (hok2 hI1).2⟩

/-- C16: in every store the workspace server reaches from the empty one by Create,
Update and Delete calls, every record has a payload; Create answers InvalidArgument
and stores nothing when validation fails or the request has no info; Update and
Delete, on any store, leave a record that has a payload with one; so Update never
panics on a store the server reaches. -/
theorem workspace_records_have_info (Validate : CreateRequest → Option String)
    (calls : List Workspace.Call) :
    (∀ k r, (Workspace.run Validate calls).sighting.lookup k = some r → r.Info ≠ none) ∧
    (∀ u rq newUUID now, Validate rq ≠ none ∨ rq.Info = none →
      ∃ msg, Workspace.Create Validate u rq newUUID now
        = (.status .InvalidArgument msg, u)) ∧
    (∀ (m : SightingMap) k r, m.lookup k = some r → r.Info ≠ none →
      (∀ req now, ∃ r', (Workspace.Update ⟨m⟩ req now).2.sighting.lookup k = some r' ∧
        r'.Info ≠ none) ∧
      (∀ req now, ∃ r', (Workspace.Delete ⟨m⟩ req now).2.sighting.lookup k = some r' ∧
        r'.Info = r.Info)) ∧
    (∀ req now, (Workspace.Update (Workspace.run Validate calls) req now).1 ≠ .panic) := by
  refine ⟨fun k r h => (workspace_run_inv Validate calls k r h).2, ?_, ?_, ?_⟩
  · intro u rq newUUID now h
    cases hv : Validate rq with
    | some err => exact ⟨"validation error: " ++ err, by simp [Workspace.Create, hv]⟩
    | none =>
      rcases h with h | h
      · exact absurd hv h
      · exact ⟨"info is required", by simp [Workspace.Create, hv, h]⟩
  · intro m k r hr hI
    constructor
    · intro req now
      obtain ⟨r', _, h2, _⟩ := update_rest m req now k r hr
      exact ⟨r', h2, update_keeps_info m req now k r hr hI r' (Or.inr h2)⟩
    · intro req now
      obtain ⟨r', _, h2, _, h4, _⟩ := delete_rest m req now k r hr
      exact ⟨r', h2, h4⟩
  · intro req now
    have hinv := workspace_run_inv Validate calls
    generalize Workspace.run Validate calls = u at hinv
    obtain ⟨m⟩ := u
    cases hl : m.lookup req.Uuid with
    | none => simp [Workspace.Update, hl]
    | some r =>
      cases hq : req.UpdateInfo with
      | none => simp [Workspace.Update, hl, hq]
      | some q =>
        obtain ⟨info, hinfo⟩ := Option.ne_none_iff_exists'.1 (hinv req.Uuid r hl).2
        simp [Workspace.Update, hl, hq, mergeUpdateInfo_of_info r q info hinfo]

/-- Witness of C16: the workspace server, with a validator that accepts every request,
after a Create with a payload, a Create without one, an Update and a Delete. -/
theorem workspace_records_have_info_witness :
    (Workspace.run (fun _ => none)
        [.create ⟨some sampleInfo⟩ "a" time1, .create ⟨none⟩ "b" time1,
          .update ⟨"a", some clientPatch⟩ time2, .delete ⟨"a"⟩ time2]).sighting.lookup "a"
      = some { Uuid := "a", Info := some { sampleInfo with Description := "seen again",
                                                           Color := some { Value := "Red" } },
               CreatedAt := some time1, UpdatedAt := some time2,
               DeletedAt := some time2 } ∧
    ({ Uuid := "a", Info := some { sampleInfo with Description := "seen again",
                                                   Color := some { Value := "Red" } },
       CreatedAt := some time1, UpdatedAt := some time2,
       DeletedAt := some time2 } : Sighting).Info ≠ none ∧
    (∃ msg, Workspace.Create (fun _ => none) Workspace.NewUfoService ⟨none⟩ "b" time1
      = (.status .InvalidArgument msg, Workspace.NewUfoService)) ∧
    (∃ r', (Workspace.Update ⟨sampleMap⟩ ⟨"u", some zeroPatch⟩ time2).2.sighting.lookup "u"
      = some r' ∧ r'.Info ≠ none) :=
  have h := workspace_records_have_info (fun _ => none)
    [.create ⟨some sampleInfo⟩ "a" time1, .create ⟨none⟩ "b" time1,
      .update ⟨"a", some clientPatch⟩ time2, .delete ⟨"a"⟩ time2]
  ⟨by decide, h.1 "a" _ (by decide), h.2.1 Workspace.NewUfoService ⟨none⟩ "b" time1 (Or.inr rfl),
    (h.2.2.1 sampleMap "u" sampleRecord (by decide) (by decide)).1 ⟨"u", some zeroPatch⟩ time2⟩

/-- C17: for a stored record and two Update calls with the patches `q1` and then `q2`,
in both servers, each payload field afterwards is the value of `q2` if `q2` has the
field, else the value of `q1` if `q1` has it, else the value from before the calls;
both calls are accepted when the record has a payload; and when no field is present
in both patches, the final payload is the same in either order of the two calls. -/
theorem sequential_updates_merge (m : SightingMap) (uuid : String)
    (q1 q2 : SightingUpdateInfo) (t t' : Timestamp) (r : Sighting)
    (hr : m.lookup uuid = some r) :
    (∃ r2,
      (GrpcServer.Update (GrpcServer.Update ⟨m⟩ ⟨uuid, some q1⟩ t).2
        ⟨uuid, some q2⟩ t').2.sightings.lookup uuid = some r2 ∧
      (Workspace.Update (Workspace.Update ⟨m⟩ ⟨uuid, some q1⟩ t).2
        ⟨uuid, some q2⟩ t').2.sighting.lookup uuid = some r2 ∧
      r2.Info.map (·.ObservedAt)
        = r.Info.map (fun i => q2.ObservedAt <|> (q1.ObservedAt <|> i.ObservedAt)) ∧
      r2.Info.map (·.Location)
        = r.Info.map (fun i => ((q2.Location <|> q1.Location).map (·.Value)).getD i.Location) ∧
      r2.Info.map (·.Description)
        = r.Info.map (fun i =>
            ((q2.Description <|> q1.Description).map (·.Value)).getD i.Description) ∧
      r2.Info.map (·.Color) = r.Info.map (fun i => q2.Color <|> (q1.Color <|> i.Color)) ∧
      r2.Info.map (·.Sound) = r.Info.map (fun i => q2.Sound <|> (q1.Sound <|> i.Sound)) ∧
      r2.Info.map (·.DurationSeconds)
        = r.Info.map (fun i =>
            q2.DurationSeconds <|> (q1.DurationSeconds <|> i.DurationSeconds))) ∧
    (r.Info ≠ none →
      (GrpcServer.Update ⟨m⟩ ⟨uuid, some q1⟩ t).1 = .ok () ∧
      (GrpcServer.Update (GrpcServer.Update ⟨m⟩ ⟨uuid, some q1⟩ t).2
        ⟨uuid, some q2⟩ t').1 = .ok () ∧
      (Workspace.Update ⟨m⟩ ⟨uuid, some q1⟩ t).1 = .ok () ∧
      (Workspace.Update (Workspace.Update ⟨m⟩ ⟨uuid, some q1⟩ t).2
        ⟨uuid, some q2⟩ t').1 = .ok ()) ∧
    ((q1.ObservedAt = none ∨ q2.ObservedAt = none) →
      (q1.Location = none ∨ q2.Location = none) →
      (q1.Description = none ∨ q2.Description = none) →
      (q1.Color = none ∨ q2.Color = none) →
      (q1.Sound = none ∨ q2.Sound = none) →
      (q1.DurationSeconds = none ∨ q2.DurationSeconds = none) →
      ((GrpcServer.Update (GrpcServer.Update ⟨m⟩ ⟨uuid, some q1⟩ t).2
          ⟨uuid, some q2⟩ t').2.sightings.lookup uuid).map (·.Info)
        = ((GrpcServer.Update (GrpcServer.Update ⟨m⟩ ⟨uuid, some q2⟩ t).2
          ⟨uuid, some q1⟩ t').2.sightings.lookup uuid).map (·.Info) ∧
      ((Workspace.Update (Workspace.Update ⟨m⟩ ⟨uuid, some q1⟩ t).2
          ⟨uuid, some q2⟩ t').2.sighting.lookup uuid).map (·.Info)
        = ((Workspace.Update (Workspace.Update ⟨m⟩ ⟨uuid, some q2⟩ t).2
          ⟨uuid, some q1⟩ t').2.sighting.lookup uuid).map (·.Info)) := by
  obtain ⟨a1, b1, c1, d1, e1, f1⟩ := q1
  obtain ⟨a2, b2, c2, d2, e2, f2⟩ := q2
  obtain ⟨r12, hg12, hw12, hi12, hok12⟩ :=
    update_payload_twice m uuid ⟨a1, b1, c1, d1, e1, f1⟩ ⟨a2, b2, c2, d2, e2, f2⟩ t t' r hr
  obtain ⟨r21, hg21, hw21, hi21, _⟩ :=
    update_payload_twice m uuid ⟨a2, b2, c2, d2, e2, f2⟩ ⟨a1, b1, c1, d1, e1, f1⟩ t t' r hr
  refine ⟨⟨r12, hg12, hw12, ?_, ?_, ?_, ?_, ?_, ?_⟩, hok12, ?_⟩
  · rw [hi12]; cases r.Info <;> [rfl; (cases a2 <;> cases a1 <;> rfl)]
  · rw [hi12]; cases r.Info <;> [rfl; (cases b2 <;> cases b1 <;> rfl)]
  · rw [hi12]; cases r.Info <;> [rfl; (cases c2 <;> cases c1 <;> rfl)]
  · rw [hi12]; cases r.Info <;> [rfl; (cases d2 <;> cases d1 <;> rfl)]
  · rw [hi12]; cases r.Info <;> [rfl; (cases e2 <;> cases e1 <;> rfl)]
  · rw [hi12]; cases r.Info <;> [rfl; (cases f2 <;> cases f1 <;> rfl)]
  · intro ha hb hc hd he hf
    rw [hg12, hg21, hw12, hw21]
    simp only [Option.map_some', and_self, Option.some.injEq]
    rw [hi12, hi21]
    cases r.Info with
    | none => rfl
    | some i =>
      simp only at ha hb hc hd he hf
      rcases ha with rfl | rfl <;> rcases hb with rfl | rfl <;> rcases hc with rfl | rfl <;>
        rcases hd with rfl | rfl <;> rcases he with rfl | rfl <;>
        rcases hf with rfl | rfl <;> rfl

/-- Witness of C17: the client's patch (description, colour) and then the patch of zero
values (location, sound, duration) on the sample record; the two patches share no
field. -/
theorem sequential_updates_merge_witness :
    (∃ r2,
      (GrpcServer.Update (GrpcServer.Update ⟨sampleMap⟩ ⟨"u", some clientPatch⟩ time1).2
        ⟨"u", some zeroPatch⟩ time2).2.sightings.lookup "u" = some r2 ∧
      (Workspace.Update (Workspace.Update ⟨sampleMap⟩ ⟨"u", some clientPatch⟩ time1).2
        ⟨"u", some zeroPatch⟩ time2).2.sighting.lookup "u" = some r2 ∧
      r2.Info.map (·.ObservedAt) = some (some { Seconds := 50, Nanos := 0 }) ∧
      r2.Info.map (·.Location) = some "" ∧
      r2.Info.map (·.Description) = some "seen again" ∧
      r2.Info.map (·.Color) = some (some { Value := "Red" }) ∧
      r2.Info.map (·.Sound) = some (some { Value := false }) ∧
      r2.Info.map (·.DurationSeconds) = some (some { Value := 0 })) ∧
    ((GrpcServer.Update ⟨sampleMap⟩ ⟨"u", some clientPatch⟩ time1).1 = .ok () ∧
      (GrpcServer.Update (GrpcServer.Update ⟨sampleMap⟩ ⟨"u", some clientPatch⟩ time1).2
        ⟨"u", some zeroPatch⟩ time2).1 = .ok () ∧
      (Workspace.Update ⟨sampleMap⟩ ⟨"u", some clientPatch⟩ time1).1 = .ok () ∧
      (Workspace.Update (Workspace.Update ⟨sampleMap⟩ ⟨"u", some clientPatch⟩ time1).2
        ⟨"u", some zeroPatch⟩ time2).1 = .ok ()) ∧
    (((GrpcServer.Update (GrpcServer.Update ⟨sampleMap⟩ ⟨"u", some clientPatch⟩ time1).2
          ⟨"u", some zeroPatch⟩ time2).2.sightings.lookup "u").map (·.Info)
        = ((GrpcServer.Update (GrpcServer.Update ⟨sampleMap⟩ ⟨"u", some zeroPatch⟩ time1).2
          ⟨"u", some clientPatch⟩ time2).2.sightings.lookup "u").map (·.Info) ∧
      ((Workspace.Update (Workspace.Update ⟨sampleMap⟩ ⟨"u", some clientPatch⟩ time1).2
          ⟨"u", some zeroPatch⟩ time2).2.sighting.lookup "u").map (·.Info)
        = ((Workspace.Update (Workspace.Update ⟨sampleMap⟩ ⟨"u", some zeroPatch⟩ time1).2
          ⟨"u", some clientPatch⟩ time2).2.sighting.lookup "u").map (·.Info)) :=
  have h := sequential_updates_merge sampleMap "u" clientPatch zeroPatch time1 time2
    sampleRecord (by decide)
  ⟨h.1, h.2.1 (by decide),
    h.2.2 (Or.inl rfl) (Or.inl rfl) (Or.inr rfl) (Or.inr rfl) (Or.inl rfl) (Or.inl rfl)⟩

end Ufo

/-! ## The weather servers -/

namespace OgenServer

/-- The `UpdateWeatherByCity` handler never leaves a nil entry in the storage. -/
theorem served_no_nil (calls : List (UpdateWeatherRequest × UpdateWeatherByCityParams × time.Time))
    (city : String) : (served calls).storage.weathers.lookup city ≠ some none := by
  have key : ∀ (cs : List (UpdateWeatherRequest × UpdateWeatherByCityParams × time.Time))
      (h : WeatherHandler), (∀ c, h.storage.weathers.lookup c ≠ some none) →
      ∀ c, (cs.foldl (fun h c => (h.UpdateWeatherByCity c.1 c.2.1 c.2.2).2)
        h).storage.weathers.lookup c ≠ some none := by
    intro cs
    induction cs with
    | nil => intro h hh; exact hh
    | cons a cs ih =>
      intro h hh
      apply ih
      intro c
      by_cases hc : c = a.2.1.City
      · subst hc
        simp [WeatherHandler.UpdateWeatherByCity, WeatherStorage.UpdateWeather]
      · simp only [WeatherHandler.UpdateWeatherByCity, WeatherStorage.UpdateWeather,
          AList.lookup_insert_ne hc]
        exact hh c
  refine key calls _ ?_ city
  intro c
  simp [NewWeatherHandler, NewWeatherStorage]

/-- C15: for every storage and every city, GetWeatherByCity returns the NotFoundError
with code 404 and the message "Weather data not found for city: " followed by the
city, with a nil error, exactly when the storage holds no record for the city;
when it holds one, the handler returns that record with a nil error.  In the storages
the server reaches no entry is nil, so there "no record" is "the city is not a key". -/
theorem getWeatherByCity_not_found_iff (h : WeatherHandler) (city : String) :
    (h.GetWeatherByCity { City := city }
        = (.NotFoundError { Code := 404,
                            Message := "Weather data not found for city: " ++ city }, none)
      ↔ ∀ w, h.storage.weathers.lookup city ≠ some (some w)) ∧
    (∀ w, h.storage.weathers.lookup city = some (some w) →
      h.GetWeatherByCity { City := city } = (.Weather w, none)) ∧
    (∀ calls,
      (served calls).GetWeatherByCity { City := city }
        = (.NotFoundError { Code := 404,
                            Message := "Weather data not found for city: " ++ city }, none)
      ↔ (served calls).storage.weathers.lookup city = none) := by
  have main : ∀ g : WeatherHandler,
      (g.GetWeatherByCity { City := city }
          = (.NotFoundError { Code := 404,
                              Message := "Weather data not found for city: " ++ city }, none)
        ↔ ∀ w, g.storage.weathers.lookup city ≠ some (some w)) := by
    intro g
    cases hl : g.storage.weathers.lookup city with
    | none => simp [WeatherHandler.GetWeatherByCity, WeatherStorage.GetWeather, hl]
    | some o =>
      cases o with
      | none => simp [WeatherHandler.GetWeatherByCity, WeatherStorage.GetWeather, hl]
      | some w => simp [WeatherHandler.GetWeatherByCity, WeatherStorage.GetWeather, hl]
  refine ⟨main h, ?_, ?_⟩
  · intro w hw
    simp [WeatherHandler.GetWeatherByCity, WeatherStorage.GetWeather, hw]
  · intro calls
    rw [main (served calls)]
    constructor
    · intro hno
      cases hl : (served calls).storage.weathers.lookup city with
      | none => rfl
      | some o =>
        cases o with
        | none => exact absurd hl (served_no_nil calls city)
        | some w => exact absurd hl (hno w)
    · intro hl w
      rw [hl]
      simp

/-- Witness of C15: the sample handler answers 404 for Paris, which is not a key, and
for Rome, whose entry is nil, and returns the stored record for Oslo. -/
theorem getWeatherByCity_not_found_iff_witness :
    sampleHandler.GetWeatherByCity { City := "Paris" }
      = (.NotFoundError { Code := 404,
                          Message := "Weather data not found for city: " ++ "Paris" }, none) ∧
    sampleHandler.GetWeatherByCity { City := "Rome" }
      = (.NotFoundError { Code := 404,
                          Message := "Weather data not found for city: " ++ "Rome" }, none) ∧
    sampleHandler.GetWeatherByCity { City := "Oslo" } = (.Weather oslo, none) :=
  ⟨(getWeatherByCity_not_found_iff sampleHandler "Paris").1.2
      (fun w hw => Option.noConfusion (show none = some (some w) from hw)),
    (getWeatherByCity_not_found_iff sampleHandler "Rome").1.2
      (fun w hw => Option.noConfusion
        (Option.some.inj (show some none = some (some w) from hw))),
    (getWeatherByCity_not_found_iff sampleHandler "Oslo").2.1 oslo rfl⟩

end OgenServer

namespace Models

/-- The values of an association list with distinct keys, read off key by key. -/
theorem weathers_eq_filterMap_keys (l : List (Sigma (fun _ : String => Weather)))
    (hl : l.NodupKeys) :
    l.map (fun e => e.2) = l.keys.filterMap (fun k => List.dlookup k l) := by
  induction l with
  | nil => rfl
  | cons e t ih =>
    obtain ⟨a, b⟩ := e
    have hnd := List.nodupKeys_cons.1 hl
    have hstep : t.keys.filterMap (fun k => List.dlookup k (⟨a, b⟩ :: t))
        = t.keys.filterMap (fun k => List.dlookup k t) := by
      apply List.filterMap_congr
      intro k hk
      have hne : k ≠ a := by
        rintro rfl
        exact hnd.1 hk
      exact List.dlookup_cons_ne t ⟨a, b⟩ hne
    simp only [List.map_cons, List.keys_cons, List.filterMap_cons, List.dlookup_cons_eq]
    rw [hstep, ← ih hnd.2]

/-- Method `GetWeather` is the lookup in the map. -/
theorem getWeather_eq_lookup (s : WeatherStorage) (city : String) :
    s.GetWeather city = s.weathers.lookup city := by
  unfold WeatherStorage.GetWeather
  cases s.weathers.lookup city <;> rfl

/-- What `GetWeather` gives after one more call. -/
theorem getWeather_apply (s : WeatherStorage) (op : Op) (c : String) :
    (s.apply op).GetWeather c =
      match op with
      | .UpdateWeather w => if w.City = c then some w else s.GetWeather c
      | .DeleteWeather city => if city = c then none else s.GetWeather c := by
  rw [getWeather_eq_lookup, getWeather_eq_lookup]
  cases op with
  | UpdateWeather w =>
    by_cases hc : w.City = c
    · subst hc
      simp [WeatherStorage.apply, WeatherStorage.UpdateWeather]
    · have hc' : c ≠ w.City := fun h => hc h.symm
      simp [WeatherStorage.apply, WeatherStorage.UpdateWeather, hc,
        AList.lookup_insert_ne hc']
  | DeleteWeather city =>
    by_cases hc : city = c
    · subst hc
      simp [WeatherStorage.apply, WeatherStorage.DeleteWeather]
    · have hc' : c ≠ city := fun h => hc h.symm
      simp [WeatherStorage.apply, WeatherStorage.DeleteWeather, hc,
        AList.lookup_erase_ne hc']

/-- The storage after a history given latest call first answers as the finite-map
reading of that history. -/
theorem getWeather_run_reverse (c : String) (history : List Op) :
    (run history.reverse).GetWeather c = latestRecord c history := by
  induction history with
  | nil => simp [run, NewWeatherStorage, getWeather_eq_lookup, latestRecord]
  | cons op earlier ih =>
    have hrun : run (op :: earlier).reverse = (run earlier.reverse).apply op := by
      simp [run, List.foldl_append]
    rw [hrun, getWeather_apply, ih]
    cases op <;> rfl

/-- C18: after every sequence of UpdateWeather and DeleteWeather calls on the empty
storage, GetWeather of a city returns the record of the most recent UpdateWeather for
that city unless a DeleteWeather of the city came after it, and nil otherwise;
DeleteWeather of a city that is not a key leaves any storage as it is; and
GetAllWeathers returns one record per key of the map, the record GetWeather gives for
that key, the keys being pairwise distinct. -/
theorem weatherStorage_finite_map (ops : List Op) (c : String) :
    (run ops).GetWeather c = latestRecord c ops.reverse ∧
    (∀ (s : WeatherStorage) city, s.GetWeather city = none → s.DeleteWeather city = s) ∧
    (run ops).weathers.keys.Nodup ∧
    (run ops).GetAllWeathers
      = (run ops).weathers.keys.filterMap (fun k => (run ops).GetWeather k) ∧
    (run ops).GetAllWeathers.length = (run ops).weathers.keys.length ∧
    (∀ k, ((run ops).GetWeather k).isSome ↔ k ∈ (run ops).weathers.keys) := by
  refine ⟨?_, ?_, (run ops).weathers.keys_nodup, ?_, ?_, ?_⟩
  · have h := getWeather_run_reverse c ops.reverse
    rwa [List.reverse_reverse] at h
  · intro s city hs
    rw [getWeather_eq_lookup] at hs
    obtain ⟨m⟩ := s
    have hnot : city ∉ m.entries.keys := AList.mem_keys.not.1 (AList.lookup_eq_none.1 hs)
    simp only [WeatherStorage.DeleteWeather]
    congr 1
    exact AList.ext (List.kerase_of_not_mem_keys hnot)
  · have h := weathers_eq_filterMap_keys (run ops).weathers.entries (run ops).weathers.nodupKeys
    simp only [getWeather_eq_lookup]
    exact h
  · simp [WeatherStorage.GetAllWeathers, AList.keys, List.keys]
  · intro k
    rw [getWeather_eq_lookup]
    exact AList.lookup_isSome.trans AList.mem_keys

/-- Witness of C18: Oslo is written twice and Rome once and then deleted; Oslo reads
as the later record, Rome as nil, a DeleteWeather of Paris changes nothing, and
GetAllWeathers lists the one record held. -/
theorem weatherStorage_finite_map_witness :
    (run [.UpdateWeather oslo1, .UpdateWeather rome, .UpdateWeather oslo2,
      .DeleteWeather "Rome"]).GetWeather "Oslo" = some oslo2 ∧
    (run [.UpdateWeather oslo1, .UpdateWeather rome, .UpdateWeather oslo2,
      .DeleteWeather "Rome"]).GetWeather "Rome" = none ∧
    (run [.UpdateWeather oslo1, .UpdateWeather rome, .UpdateWeather oslo2,
      .DeleteWeather "Rome"]).DeleteWeather "Paris"
      = run [.UpdateWeather oslo1, .UpdateWeather rome, .UpdateWeather oslo2,
          .DeleteWeather "Rome"] ∧
    (run [.UpdateWeather oslo1, .UpdateWeather rome, .UpdateWeather oslo2,
      .DeleteWeather "Rome"]).GetAllWeathers = [oslo2] :=
  ⟨(weatherStorage_finite_map [.UpdateWeather oslo1, .UpdateWeather rome,
      .UpdateWeather oslo2, .DeleteWeather "Rome"] "Oslo").1,
    (weatherStorage_finite_map [.UpdateWeather oslo1, .UpdateWeather rome,
      .UpdateWeather oslo2, .DeleteWeather "Rome"] "Rome").1,
    (weatherStorage_finite_map [] "Paris").2.1 _ "Paris" rfl,
    (weatherStorage_finite_map [.UpdateWeather oslo1, .UpdateWeather rome,
      .UpdateWeather oslo2, .DeleteWeather "Rome"] "Oslo").2.2.2.1⟩

end Models
